import Mathlib

/-!
Verification of the ConexCC motorized-stage controller
(src/omq_visa_drivers/motors/conexcc.py).

The Python class talks to a vendor driver object; every driver call is a
synchronous round trip returning a result code, optional numeric response and
an error string.  We embed the class shallowly:

- the driver is an environment (Env) of response streams, one stream per
  driver entry point, indexed by how many calls of that kind were made so far;
- the mutable world is a state (MSt) recording the trace of driver commands
  issued, the total time spent sleeping, and the cached software limits;
- Python exceptions become an Except layer; driver side effects performed
  before an exception persist, so each operation returns
  Except PyError result × MSt;
- positions and velocities are rationals (the Python floats only carry exact
  decimal constants in the checked properties); numeric formatting inside
  error-message strings (Python %.2f) is abstracted by toString;
- time advances only at the sleep call, by MOVEMENT_SLEEP_TIME per call, so
  the elapsed time inside a polling loop is the number of sleeps times
  MOVEMENT_SLEEP_TIME.  The polling loops terminate via an explicit fuel
  argument; callers pass natBound timeout, which is exactly the number of
  iterations after which the elapsed-time test fires, so the fuel-0 case
  coincides with the timeout exit of the Python while loop.
-/

namespace ConexCC

/-- Response of the driver TS (state) query: result code, error field, state
field, error string.  The Python code discards the result code. -/
structure TSResp where
  res : Int
  error : String
  state : String
  errStr : String
deriving DecidableEq

/-- Response of a numeric driver query (TP, SL_Get, SR_Get, VA_Get). -/
structure QResp where
  res : Int
  resp : ℚ
  errStr : String
deriving DecidableEq

/-- Response of a driver set command (PR_Set, PA_Set, MM_Set, OH_Set, VA_Set, OR). -/
structure SResp where
  res : Int
  errStr : String
deriving DecidableEq

/-- Driver commands, recording the values actually transmitted (move targets
and distances already converted to millimeters, velocities after clamping). -/
inductive Cmd where
  | ts
  | tp
  | vaGet
  | slGet
  | srGet
  | prSet (dist_mm : ℚ)
  | paSet (pos_mm : ℚ)
  | mmSet (s : ℕ)
  | ohSet (v : ℚ)
  | vaSet (v : ℚ)
  | orHome
deriving DecidableEq

def Cmd.isTs : Cmd → Bool
  | .ts => true
  | _ => false

def Cmd.isTp : Cmd → Bool
  | .tp => true
  | _ => false

def Cmd.isVaGet : Cmd → Bool
  | .vaGet => true
  | _ => false

def Cmd.isSl : Cmd → Bool
  | .slGet => true
  | _ => false

def Cmd.isSr : Cmd → Bool
  | .srGet => true
  | _ => false

def Cmd.isPr : Cmd → Bool
  | .prSet _ => true
  | _ => false

def Cmd.isPa : Cmd → Bool
  | .paSet _ => true
  | _ => false

def Cmd.isMm : Cmd → Bool
  | .mmSet _ => true
  | _ => false

def Cmd.isOh : Cmd → Bool
  | .ohSet _ => true
  | _ => false

def Cmd.isVaSet : Cmd → Bool
  | .vaSet _ => true
  | _ => false

def Cmd.isOrHome : Cmd → Bool
  | .orHome => true
  | _ => false

/-- A command that changes hardware state, as opposed to a read-only query. -/
def Cmd.isWrite : Cmd → Bool
  | .prSet _ => true
  | .paSet _ => true
  | .mmSet _ => true
  | .ohSet _ => true
  | .vaSet _ => true
  | .orHome => true
  | _ => false

/-- Environment: the driver, as one response stream per entry point; stream
index n is the response to the n-th call of that kind (counting from 0). -/
structure Env where
  ts : ℕ → TSResp
  tp : ℕ → QResp
  slGet : ℕ → QResp
  srGet : ℕ → QResp
  vaGet : ℕ → QResp
  prSet : ℕ → SResp
  paSet : ℕ → SResp
  mmSet : ℕ → SResp
  ohSet : ℕ → SResp
  vaSet : ℕ → SResp
  orCmd : ℕ → SResp

/-- Mutable world of one ConexCC instance: trace of driver commands issued so
far, total time slept, and the cached software limits from get_limits. -/
structure MSt where
  trace : List Cmd
  slept : ℚ
  min_limit : Option ℚ
  max_limit : Option ℚ
deriving DecidableEq

instance {e a : Type} [DecidableEq e] [DecidableEq a] : DecidableEq (Except e a)
  | .error x, .error y => decidable_of_iff (x = y) (by simp)
  | .error _, .ok _ => isFalse fun h => Except.noConfusion h
  | .ok _, .error _ => isFalse fun h => Except.noConfusion h
  | .ok x, .ok y => decidable_of_iff (x = y) (by simp)

/-- Fresh instance state: nothing issued, nothing slept, no cached limits. -/
def initSt : MSt := ⟨[], 0, none, none⟩

def countTs (tr : List Cmd) : ℕ := (tr.filter Cmd.isTs).length
def countTp (tr : List Cmd) : ℕ := (tr.filter Cmd.isTp).length
def countVaGet (tr : List Cmd) : ℕ := (tr.filter Cmd.isVaGet).length
def countSl (tr : List Cmd) : ℕ := (tr.filter Cmd.isSl).length
def countSr (tr : List Cmd) : ℕ := (tr.filter Cmd.isSr).length
def countPr (tr : List Cmd) : ℕ := (tr.filter Cmd.isPr).length
def countPa (tr : List Cmd) : ℕ := (tr.filter Cmd.isPa).length
def countMm (tr : List Cmd) : ℕ := (tr.filter Cmd.isMm).length
def countOh (tr : List Cmd) : ℕ := (tr.filter Cmd.isOh).length
def countVaSet (tr : List Cmd) : ℕ := (tr.filter Cmd.isVaSet).length
def countOr (tr : List Cmd) : ℕ := (tr.filter Cmd.isOrHome).length

/-- Python exceptions raised by the module: the CCMotorError subclasses, plus
the plain ValueError raised by the two move commands.  CCMotorTimeoutError
stores its timeout attribute; CCMotorRangeExceededError stores its pos and
max_pos attributes. -/
inductive PyError where
  | ccCommunicationError (message : String)
  | ccStateError (message : String)
  | ccTimeoutError (timeout : Option ℚ)
  | ccRangeExceededError (pos : Option ℚ) (max_pos : Option ℚ)
  | valueError (message : String)
deriving DecidableEq

/-- The StateError named tuple returned by get_state (state and error). -/
structure StateError where
  state : String
  error : String
deriving DecidableEq

/-- Class constant MAX_VELOCITY = 0.4. -/
def MAX_VELOCITY : ℚ := 2/5

/-- Class constant READY_STATES. -/
def READY_STATES : List String := ["32", "33", "34", "36", "37", "38"]

/-- Class constant MAX_RUN = 37000 (micrometers, empirically measured). -/
def MAX_RUN : ℚ := 37000

/-- Class constant MOVEMENT_SLEEP_TIME = 0.05 seconds. -/
def MOVEMENT_SLEEP_TIME : ℚ := 1/20

/-- Method get_state: one TS round trip; raises CCMotorCommunicationError when
the error string is non-empty.  The result code is discarded, exactly as the
Python unpacking discards the first returned value. -/
def get_state (env : Env) (st : MSt) : Except PyError StateError × MSt :=
  let r := env.ts (countTs st.trace)
  let st1 : MSt := { st with trace := st.trace ++ [Cmd.ts] }
  if r.errStr.length ≠ 0 then
    (.error (.ccCommunicationError
      ("Oops: Cannot get the state. Error: " ++ r.errStr)), st1)
  else
    (.ok ⟨r.state, r.error⟩, st1)

/-- Property state: the state field of get_state. -/
def state (env : Env) (st : MSt) : Except PyError String × MSt :=
  match get_state env st with
  | (.error e, st1) => (.error e, st1)
  | (.ok se, st1) => (.ok se.state, st1)

/-- Property is_ready: state is a member of READY_STATES. -/
def is_ready (env : Env) (st : MSt) : Except PyError Bool × MSt :=
  match state env st with
  | (.error e, st1) => (.error e, st1)
  | (.ok s, st1) => (.ok (READY_STATES.contains s), st1)

/-- Property cur_pos_mm: one TP round trip, current position in millimeters. -/
def cur_pos_mm (env : Env) (st : MSt) : Except PyError ℚ × MSt :=
  let r := env.tp (countTp st.trace)
  let st1 : MSt := { st with trace := st.trace ++ [Cmd.tp] }
  if r.res ≠ 0 ∨ r.errStr ≠ "" then
    (.error (.ccCommunicationError
      ("Current Position: result=" ++ toString r.res ++ ", response=" ++
       toString r.resp ++ ", errString=\"" ++ r.errStr ++ "\"")), st1)
  else
    (.ok r.resp, st1)

/-- Property cur_pos: cur_pos_mm times 1e3, micrometers. -/
def cur_pos (env : Env) (st : MSt) : Except PyError ℚ × MSt :=
  match cur_pos_mm env st with
  | (.error e, st1) => (.error e, st1)
  | (.ok mm, st1) => (.ok (mm * 1000), st1)

/-- Method get_limits: SL_Get then SR_Get round trips, caching the responses
in min_limit and max_limit. -/
def get_limits (env : Env) (st : MSt) : Except PyError (ℚ × ℚ) × MSt :=
  let r := env.slGet (countSl st.trace)
  let st1 : MSt := { st with trace := st.trace ++ [Cmd.slGet] }
  if r.res ≠ 0 ∨ r.errStr ≠ "" then
    (.error (.ccCommunicationError
      ("Negative SW Limit: result=" ++ toString r.res ++ ", response=" ++
       toString r.resp ++ ", errString=\"" ++ r.errStr ++ "\"")), st1)
  else
    let st2 : MSt := { st1 with min_limit := some r.resp }
    let r2 := env.srGet (countSr st2.trace)
    let st3 : MSt := { st2 with trace := st2.trace ++ [Cmd.srGet] }
    if r2.res ≠ 0 ∨ r2.errStr ≠ "" then
      (.error (.ccCommunicationError
        ("Oops: Positive SW Limit: result=" ++ toString r2.res ++ ",response=" ++
         toString r2.resp ++ ",errString=\"" ++ r2.errStr ++ "\"")), st3)
    else
      let st4 : MSt := { st3 with max_limit := some r2.resp }
      (.ok (r.resp, r2.resp), st4)

/-- Method set_state: one MM_Set round trip (0 disables, 1 enables). -/
def set_state (env : Env) (s : ℕ) (st : MSt) : Except PyError Unit × MSt :=
  let r := env.mmSet (countMm st.trace)
  let st1 : MSt := { st with trace := st.trace ++ [Cmd.mmSet s] }
  if r.res ≠ 0 ∨ r.errStr ≠ "" then
    (.error (.ccCommunicationError
      ("Set state to " ++ toString s ++ ": result=" ++ toString r.res ++
       ", errString=\"" ++ r.errStr ++ "\".")), st1)
  else
    (.ok (), st1)

/-- Method set_disable. -/
def set_disable (env : Env) (st : MSt) : Except PyError Unit × MSt :=
  set_state env 0 st

/-- Method set_enable. -/
def set_enable (env : Env) (st : MSt) : Except PyError Unit × MSt :=
  set_state env 1 st

/-- Method set_homing_velocity: clamps to MAX_VELOCITY, then one OH_Set round
trip transmitting the clamped value. -/
def set_homing_velocity (env : Env) (velocity : ℚ) (st : MSt) :
    Except PyError Unit × MSt :=
  let velocity := if velocity > MAX_VELOCITY then MAX_VELOCITY else velocity
  let r := env.ohSet (countOh st.trace)
  let st1 : MSt := { st with trace := st.trace ++ [Cmd.ohSet velocity] }
  if r.res ≠ 0 ∨ r.errStr ≠ "" then
    (.error (.ccCommunicationError
      ("Homing velocity: result=" ++ toString r.res ++ ", errString=\"" ++
       r.errStr ++ "\".")), st1)
  else
    (.ok (), st1)

/-- Property velocity (getter): one VA_Get round trip. -/
def velocity_get (env : Env) (st : MSt) : Except PyError ℚ × MSt :=
  let r := env.vaGet (countVaGet st.trace)
  let st1 : MSt := { st with trace := st.trace ++ [Cmd.vaGet] }
  if r.res ≠ 0 ∨ r.errStr ≠ "" then
    (.error (.ccCommunicationError
      ("Oops: Current Velocity: result=" ++ toString r.res ++ ", response=" ++
       toString r.resp ++ ", errString=\"" ++ r.errStr ++ "\"")), st1)
  else
    (.ok r.resp, st1)

/-- Property velocity (setter): clamps to MAX_VELOCITY (with a warning log,
not modeled), then one VA_Set round trip transmitting the clamped value. -/
def velocity_set (env : Env) (speed : ℚ) (st : MSt) :
    Except PyError Unit × MSt :=
  let speed := if speed > MAX_VELOCITY then MAX_VELOCITY else speed
  let r := env.vaSet (countVaSet st.trace)
  let st1 : MSt := { st with trace := st.trace ++ [Cmd.vaSet speed] }
  if r.res ≠ 0 ∨ r.errStr ≠ "" then
    (.error (.ccCommunicationError
      ("Set velocity: result=" ++ toString r.res ++ ",errString=\"" ++
       r.errStr ++ "\"")), st1)
  else
    (.ok (), st1)

/-- Method init_position_async: one OR (find home) round trip. -/
def init_position_async (env : Env) (st : MSt) : Except PyError Unit × MSt :=
  let r := env.orCmd (countOr st.trace)
  let st1 : MSt := { st with trace := st.trace ++ [Cmd.orHome] }
  if r.res ≠ 0 ∨ r.errStr ≠ "" then
    (.error (.ccCommunicationError
      ("Find Home: result=" ++ toString r.res ++ ",errString=\"" ++
       r.errStr ++ "\"")), st1)
  else
    (.ok (), st1)

/-- Number of loop iterations after which the elapsed-time test of a polling
loop fires: the first j with j * MOVEMENT_SLEEP_TIME > timeout. -/
def natBound (timeout : ℚ) : ℕ :=
  if 20 * timeout < 0 then 0 else (⌊20 * timeout⌋).toNat + 1

/-- The polling while loop shared by the three sync operations: on each
iteration, first the elapsed-time test (j sleeps so far), then one sleep, then
one is_ready query; exits with true as soon as ready, with false on timeout.
The fuel argument is natBound timeout at the call sites, so fuel reaches 0
exactly when the elapsed-time test fires (lemmas natBound_gt and natBound_le
below); the fuel-0 result is the timeout exit. -/
def pollReady (env : Env) (timeout : ℚ) : ℕ → ℕ → MSt → Except PyError Bool × MSt
  | _, 0, st => (.ok false, st)
  | j, fuel + 1, st =>
    if (j : ℚ) * MOVEMENT_SLEEP_TIME > timeout then
      (.ok false, st)
    else
      let st1 : MSt := { st with slept := st.slept + MOVEMENT_SLEEP_TIME }
      match is_ready env st1 with
      | (.error e, st2) => (.error e, st2)
      | (.ok done, st2) =>
        if done then (.ok true, st2)
        else pollReady env timeout (j + 1) fuel st2

/-- Method init_position_sync: init_position_async, then poll until ready or
timeout; on timeout retry with n_retry - 1 and the same timeout if n_retry is
positive, else raise CCMotorTimeoutError carrying the timeout. -/
def init_position_sync (env : Env) (timeout : ℚ) : ℕ → MSt → Except PyError Unit × MSt
  | n_retry, st =>
    match init_position_async env st with
    | (.error e, st1) => (.error e, st1)
    | (.ok _, st1) =>
      match pollReady env timeout 0 (natBound timeout) st1 with
      | (.error e, st2) => (.error e, st2)
      | (.ok true, st2) => (.ok (), st2)
      | (.ok false, st2) =>
        match n_retry with
        | n + 1 => init_position_sync env timeout n st2
        | 0 => (.error (.ccTimeoutError (some timeout)), st2)

/-- Method move_relative_async: read cur_pos, range check against MAX_RUN,
ready check, then one PR_Set round trip transmitting 1e-3 times the distance.
The error message of the not-ready branch queries the state a second time,
exactly as the Python string interpolation does. -/
def move_relative_async (env : Env) (distance_um : ℚ) (st : MSt) :
    Except PyError Unit × MSt :=
  match cur_pos env st with
  | (.error e, st1) => (.error e, st1)
  | (.ok cp, st1) =>
    if cp + distance_um > MAX_RUN then
      (.error (.ccRangeExceededError (some (cp + distance_um)) (some MAX_RUN)), st1)
    else
      match is_ready env st1 with
      | (.error e, st2) => (.error e, st2)
      | (.ok rdy, st2) =>
        if ¬ rdy then
          match state env st2 with
          | (.error e, st3) => (.error e, st3)
          | (.ok s, st3) =>
            (.error (.ccStateError ("Stage not ready: " ++ s)), st3)
        else
          let r := env.prSet (countPr st2.trace)
          let st3 : MSt :=
            { st2 with trace := st2.trace ++ [Cmd.prSet ((1/1000) * distance_um)] }
          if r.res ≠ 0 ∨ r.errStr ≠ "" then
            (.error (.valueError ("Move went wrong: " ++ r.errStr)), st3)
          else
            (.ok (), st3)

/-- Method move_relative_sync: move_relative_async, then poll until ready or
timeout; on timeout raise CCMotorTimeoutError, never retry. -/
def move_relative_sync (env : Env) (distance_um : ℚ) (timeout : ℚ) (st : MSt) :
    Except PyError Unit × MSt :=
  match move_relative_async env distance_um st with
  | (.error e, st1) => (.error e, st1)
  | (.ok _, st1) =>
    match pollReady env timeout 0 (natBound timeout) st1 with
    | (.error e, st2) => (.error e, st2)
    | (.ok true, st2) => (.ok (), st2)
    | (.ok false, st2) => (.error (.ccTimeoutError (some timeout)), st2)

/-- Method move_absolute_async: range check against MAX_RUN, ready check, then
one PA_Set round trip transmitting 1e-3 times the target. -/
def move_absolute_async (env : Env) (new_pos : ℚ) (st : MSt) :
    Except PyError Unit × MSt :=
  if new_pos > MAX_RUN then
    (.error (.ccRangeExceededError (some new_pos) (some MAX_RUN)), st)
  else
    match is_ready env st with
    | (.error e, st1) => (.error e, st1)
    | (.ok rdy, st1) =>
      if ¬ rdy then
        match state env st1 with
        | (.error e, st2) => (.error e, st2)
        | (.ok s, st2) =>
          (.error (.ccStateError ("Stage not ready. Current state is : " ++ s)), st2)
      else
        let r := env.paSet (countPa st1.trace)
        let st2 : MSt :=
          { st1 with trace := st1.trace ++ [Cmd.paSet ((1/1000) * new_pos)] }
        if r.res ≠ 0 ∨ r.errStr ≠ "" then
          (.error (.valueError ("Move went wrong: " ++ r.errStr)), st2)
        else
          (.ok (), st2)

/-- Method move_absolute_sync: move_absolute_async, then poll until the state
is in READY_STATES or timeout; on timeout with n_retry positive, re-enable,
re-home via init_position_sync with its default arguments (timeout 30,
n_retry 3), then retry the same move with n_retry - 1; with n_retry exhausted
raise CCMotorTimeoutError carrying the timeout. -/
def move_absolute_sync (env : Env) (new_pos : ℚ) (timeout : ℚ) :
    ℕ → MSt → Except PyError Unit × MSt
  | n_retry, st =>
    match move_absolute_async env new_pos st with
    | (.error e, st1) => (.error e, st1)
    | (.ok _, st1) =>
      match pollReady env timeout 0 (natBound timeout) st1 with
      | (.error e, st2) => (.error e, st2)
      | (.ok true, st2) => (.ok (), st2)
      | (.ok false, st2) =>
        match n_retry with
        | n + 1 =>
          match set_enable env st2 with
          | (.error e, st3) => (.error e, st3)
          | (.ok _, st3) =>
            match init_position_sync env 30 3 st3 with
            | (.error e, st4) => (.error e, st4)
            | (.ok _, st4) => move_absolute_sync env new_pos timeout n st4
        | 0 => (.error (.ccTimeoutError (some timeout)), st2)

/-! Concrete driver environments used by witnesses and counterexamples. -/

/-- A set-command response reporting success. -/
def okSet : SResp := ⟨0, ""⟩

/-- A TS response with state 28 (MOVING), no error. -/
def movingTS : TSResp := ⟨0, "", "28", ""⟩

/-- A TS response with state 32 (READY from HOMING), no error. -/
def readyTS : TSResp := ⟨0, "", "32", ""⟩

/-- A driver whose state query always reports MOVING (never a ready state);
every other round trip succeeds, with the position reading fixed at 1 mm. -/
def neverReadyEnv : Env where
  ts := fun _ => movingTS
  tp := fun _ => ⟨0, 1, ""⟩
  slGet := fun _ => ⟨0, 0, ""⟩
  srGet := fun _ => ⟨0, 37, ""⟩
  vaGet := fun _ => ⟨0, 1/10, ""⟩
  prSet := fun _ => okSet
  paSet := fun _ => okSet
  mmSet := fun _ => okSet
  ohSet := fun _ => okSet
  vaSet := fun _ => okSet
  orCmd := fun _ => okSet

/-- A driver whose state query always reports ready. -/
def alwaysReadyEnv : Env :=
  { neverReadyEnv with ts := fun _ => readyTS }

/-- A driver that is ready at the first state query (the pre-flight check of
a move) and stuck in MOVING at every later one. -/
def stuckAfterMoveEnv : Env :=
  { neverReadyEnv with ts := fun n => if n = 0 then readyTS else movingTS }

/-- A driver on which homing completes but moves never do, for polling loops
of natBound B iterations: taking the state queries in groups of B + 2, the
first query of a group (the pre-flight check of a move attempt) and the last
one (the first poll after re-homing) report ready, and the B polls after the
move report MOVING. -/
def stuckMoveEnv (B : ℕ) : Env :=
  { neverReadyEnv with
    ts := fun n => if n % (B + 2) = 0 ∨ n % (B + 2) = B + 1 then readyTS else movingTS }

/-! Helper lemmas about natBound and the polling loop. -/

theorem natBound_gt (t : ℚ) : t < (natBound t : ℚ) * MOVEMENT_SLEEP_TIME := by
  rw [natBound]
  by_cases h : 20 * t < 0
  · rw [if_pos h]
    simp only [Nat.cast_zero, zero_mul]
    linarith
  · rw [if_neg h]
    push_neg at h
    have h0 : (0 : ℤ) ≤ ⌊20 * t⌋ := Int.floor_nonneg.mpr h
    have hf : 20 * t < ((⌊20 * t⌋ : ℤ) : ℚ) + 1 := Int.lt_floor_add_one (20 * t)
    have hz : ((⌊20 * t⌋).toNat : ℤ) + 1 = ⌊20 * t⌋ + 1 := by
      rw [Int.toNat_of_nonneg h0]
    have hcast : ((((⌊20 * t⌋).toNat + 1 : ℕ)) : ℚ) = ((⌊20 * t⌋ : ℤ) : ℚ) + 1 := by
      exact_mod_cast hz
    rw [hcast, MOVEMENT_SLEEP_TIME]
    linarith

theorem natBound_le {t : ℚ} {j : ℕ} (h : j < natBound t) :
    (j : ℚ) * MOVEMENT_SLEEP_TIME ≤ t := by
  rw [natBound] at h
  by_cases h0 : 20 * t < 0
  · rw [if_pos h0] at h
    omega
  · rw [if_neg h0] at h
    push_neg at h0
    have hnn : (0 : ℤ) ≤ ⌊20 * t⌋ := Int.floor_nonneg.mpr h0
    have hj : (j : ℤ) ≤ ⌊20 * t⌋ := by omega
    have : (j : ℚ) ≤ 20 * t := by exact_mod_cast Int.le_floor.mp hj
    rw [MOVEMENT_SLEEP_TIME]
    linarith

theorem countTs_append (a b : List Cmd) :
    countTs (a ++ b) = countTs a + countTs b := by
  simp [countTs, List.filter_append]

/-- Reduction of is_ready when the TS round trip has an empty error string. -/
theorem is_ready_red (env : Env) (st : MSt)
    (he : (env.ts (countTs st.trace)).errStr = "") :
    is_ready env st =
      (.ok (READY_STATES.contains (env.ts (countTs st.trace)).state),
       { st with trace := st.trace ++ [Cmd.ts] }) := by
  simp [is_ready, state, get_state, he]

theorem countTs_single_ts : countTs [Cmd.ts] = 1 := rfl

/-- A polling loop whose is_ready queries all report a non-ready state (with
empty error string) runs for its full fuel and exits on the timeout branch,
sleeping once and issuing one TS query per iteration. -/
theorem pollReady_stuck (env : Env) (t : ℚ) (j fuel : ℕ) (st : MSt)
    (hfj : j + fuel = natBound t)
    (h : ∀ k, k < fuel → (env.ts (countTs st.trace + k)).errStr = "" ∧
        READY_STATES.contains (env.ts (countTs st.trace + k)).state = false) :
    pollReady env t j fuel st =
      (.ok false, { st with
        slept := st.slept + fuel * MOVEMENT_SLEEP_TIME,
        trace := st.trace ++ List.replicate fuel Cmd.ts }) := by
  induction fuel generalizing j st with
  | zero =>
    simp [pollReady]
  | succ fuel ih =>
    have hcond : ¬ ((j : ℚ) * MOVEMENT_SLEEP_TIME > t) :=
      not_lt.mpr (natBound_le (t := t) (j := j) (by omega))
    have h0 := h 0 (by omega)
    simp only [Nat.add_zero] at h0
    have hred := is_ready_red env
      { st with slept := st.slept + MOVEMENT_SLEEP_TIME } h0.1
    simp only [pollReady]
    rw [if_neg hcond, hred]
    simp only [h0.2]
    have hstep := ih (j + 1)
      ({ st with slept := st.slept + MOVEMENT_SLEEP_TIME,
                 trace := st.trace ++ [Cmd.ts] })
      (by omega)
      (by
        intro k hk
        have hidx : countTs (st.trace ++ [Cmd.ts]) + k = countTs st.trace + (k + 1) := by
          rw [countTs_append, countTs_single_ts]
          omega
        simp only [hidx]
        exact h (k + 1) (by omega))
    simp only [Bool.false_eq_true, if_false]
    rw [hstep]
    refine congrArg (fun s => ((Except.ok false : Except PyError Bool), s)) ?_
    refine congrArg₂ (fun a b => ({ st with slept := a, trace := b } : MSt)) ?_ ?_
    · push_cast
      ring
    · simp [List.replicate_succ]

/-- A polling loop whose first is_ready query reports a ready state (with
empty error string) exits true after one sleep and one TS query, provided the
timeout is nonnegative and the fuel is positive. -/
theorem pollReady_first_ready (env : Env) (t : ℚ) (fuel : ℕ) (st : MSt)
    (hfuel : 0 < fuel) (ht : 0 ≤ t)
    (he : (env.ts (countTs st.trace)).errStr = "")
    (hs : READY_STATES.contains (env.ts (countTs st.trace)).state = true) :
    pollReady env t 0 fuel st =
      (.ok true, { st with
        slept := st.slept + MOVEMENT_SLEEP_TIME,
        trace := st.trace ++ [Cmd.ts] }) := by
  obtain ⟨fuel', rfl⟩ : ∃ f, fuel = f + 1 := ⟨fuel - 1, by omega⟩
  have hcond : ¬ (((0 : ℕ) : ℚ) * MOVEMENT_SLEEP_TIME > t) := by
    simp only [Nat.cast_zero, zero_mul]
    linarith
  have hred := is_ready_red env
    { st with slept := st.slept + MOVEMENT_SLEEP_TIME } he
  simp only [pollReady]
  rw [if_neg hcond, hred]
  simp only [hs, if_true, ite_true]

theorem countTs_nil : countTs [] = 0 := rfl

theorem countPa_nil : countPa [] = 0 := rfl

theorem countPr_nil : countPr [] = 0 := rfl

theorem countMm_nil : countMm [] = 0 := rfl

theorem countOr_nil : countOr [] = 0 := rfl

theorem countTp_nil : countTp [] = 0 := rfl

theorem countPa_append (a b : List Cmd) : countPa (a ++ b) = countPa a + countPa b := by
  simp [countPa, List.filter_append]

theorem countPr_append (a b : List Cmd) : countPr (a ++ b) = countPr a + countPr b := by
  simp [countPr, List.filter_append]

theorem countMm_append (a b : List Cmd) : countMm (a ++ b) = countMm a + countMm b := by
  simp [countMm, List.filter_append]

theorem countOr_append (a b : List Cmd) : countOr (a ++ b) = countOr a + countOr b := by
  simp [countOr, List.filter_append]

theorem countTp_append (a b : List Cmd) : countTp (a ++ b) = countTp a + countTp b := by
  simp [countTp, List.filter_append]

theorem countTs_cons (c : Cmd) (tr : List Cmd) :
    countTs (c :: tr) = (if c.isTs then 1 else 0) + countTs tr := by
  by_cases h : c.isTs <;> simp [countTs, List.filter_cons, h] <;> omega

theorem countPa_cons (c : Cmd) (tr : List Cmd) :
    countPa (c :: tr) = (if c.isPa then 1 else 0) + countPa tr := by
  by_cases h : c.isPa <;> simp [countPa, List.filter_cons, h] <;> omega

theorem countPr_cons (c : Cmd) (tr : List Cmd) :
    countPr (c :: tr) = (if c.isPr then 1 else 0) + countPr tr := by
  by_cases h : c.isPr <;> simp [countPr, List.filter_cons, h] <;> omega

theorem countMm_cons (c : Cmd) (tr : List Cmd) :
    countMm (c :: tr) = (if c.isMm then 1 else 0) + countMm tr := by
  by_cases h : c.isMm <;> simp [countMm, List.filter_cons, h] <;> omega

theorem countOr_cons (c : Cmd) (tr : List Cmd) :
    countOr (c :: tr) = (if c.isOrHome then 1 else 0) + countOr tr := by
  by_cases h : c.isOrHome <;> simp [countOr, List.filter_cons, h] <;> omega

theorem countTp_cons (c : Cmd) (tr : List Cmd) :
    countTp (c :: tr) = (if c.isTp then 1 else 0) + countTp tr := by
  by_cases h : c.isTp <;> simp [countTp, List.filter_cons, h] <;> omega

theorem countTs_replicate (n : ℕ) : countTs (List.replicate n Cmd.ts) = n := by
  simp [countTs, List.filter_replicate, Cmd.isTs]

theorem countPa_replicate (n : ℕ) : countPa (List.replicate n Cmd.ts) = 0 := by
  simp [countPa, List.filter_replicate, Cmd.isPa]

theorem countPr_replicate (n : ℕ) : countPr (List.replicate n Cmd.ts) = 0 := by
  simp [countPr, List.filter_replicate, Cmd.isPr]

theorem countMm_replicate (n : ℕ) : countMm (List.replicate n Cmd.ts) = 0 := by
  simp [countMm, List.filter_replicate, Cmd.isMm]

theorem countOr_replicate (n : ℕ) : countOr (List.replicate n Cmd.ts) = 0 := by
  simp [countOr, List.filter_replicate, Cmd.isOrHome]

theorem countTp_replicate (n : ℕ) : countTp (List.replicate n Cmd.ts) = 0 := by
  simp [countTp, List.filter_replicate, Cmd.isTp]

/-- Reduction of cur_pos when the TP round trip succeeds. -/
theorem cur_pos_ok (env : Env) (st : MSt)
    (h1 : (env.tp (countTp st.trace)).res = 0)
    (h2 : (env.tp (countTp st.trace)).errStr = "") :
    cur_pos env st =
      (.ok ((env.tp (countTp st.trace)).resp * 1000),
       { st with trace := st.trace ++ [Cmd.tp] }) := by
  simp [cur_pos, cur_pos_mm, h1, h2]

/-- Reduction of move_absolute_async when the target is in range, the
pre-flight state query reports ready, and the PA_Set round trip succeeds. -/
theorem move_absolute_async_ok (env : Env) (p : ℚ) (st : MSt)
    (hp : ¬ p > MAX_RUN)
    (he : (env.ts (countTs st.trace)).errStr = "")
    (hs : READY_STATES.contains (env.ts (countTs st.trace)).state = true)
    (h1 : (env.paSet (countPa st.trace)).res = 0)
    (h2 : (env.paSet (countPa st.trace)).errStr = "") :
    move_absolute_async env p st =
      (.ok (), { st with trace := st.trace ++ [Cmd.ts, Cmd.paSet ((1/1000) * p)] }) := by
  rw [move_absolute_async, if_neg hp, is_ready_red env st he]
  dsimp only
  rw [hs]
  have hcPa : countPa (st.trace ++ [Cmd.ts]) = countPa st.trace := by
    simp [countPa_append, countPa_cons, countPa_nil, Cmd.isPa]
  simp only [hcPa, h1, h2, List.append_assoc, List.cons_append, List.nil_append,
    ne_eq, not_true_eq_false, not_false_eq_true, or_self, if_true, ite_true,
    if_false, ite_false, Bool.not_true, Bool.false_eq_true]

/-- Reduction of move_relative_async when TP succeeds, the target is in
range, the pre-flight state query reports ready, and PR_Set succeeds. -/
theorem move_relative_async_ok (env : Env) (d : ℚ) (st : MSt)
    (h1 : (env.tp (countTp st.trace)).res = 0)
    (h2 : (env.tp (countTp st.trace)).errStr = "")
    (hr : ¬ (env.tp (countTp st.trace)).resp * 1000 + d > MAX_RUN)
    (he : (env.ts (countTs st.trace)).errStr = "")
    (hs : READY_STATES.contains (env.ts (countTs st.trace)).state = true)
    (hp1 : (env.prSet (countPr st.trace)).res = 0)
    (hp2 : (env.prSet (countPr st.trace)).errStr = "") :
    move_relative_async env d st =
      (.ok (), { st with
        trace := st.trace ++ [Cmd.tp, Cmd.ts, Cmd.prSet ((1/1000) * d)] }) := by
  rw [move_relative_async, cur_pos_ok env st h1 h2]
  dsimp only
  rw [if_neg hr]
  have hcTs : countTs (st.trace ++ [Cmd.tp]) = countTs st.trace := by
    simp [countTs_append, countTs_cons, countTs_nil, Cmd.isTs]
  rw [is_ready_red env _ (by rw [hcTs]; exact he)]
  dsimp only
  rw [hcTs, hs]
  have hcPr : countPr ((st.trace ++ [Cmd.tp]) ++ [Cmd.ts]) = countPr st.trace := by
    simp [countPr_append, countPr_cons, countPr_nil, Cmd.isPr]
  simp only [hcPr, hp1, hp2, ne_eq, not_true_eq_false, not_false_eq_true,
    or_self, Bool.not_true, Bool.false_eq_true, if_false, ite_false]
  simp

/-- Reduction of init_position_async when the OR round trip succeeds. -/
theorem init_position_async_ok (env : Env) (st : MSt)
    (h1 : (env.orCmd (countOr st.trace)).res = 0)
    (h2 : (env.orCmd (countOr st.trace)).errStr = "") :
    init_position_async env st =
      (.ok (), { st with trace := st.trace ++ [Cmd.orHome] }) := by
  simp [init_position_async, h1, h2]

/-- Reduction of set_state when the MM_Set round trip succeeds. -/
theorem set_state_ok (env : Env) (s : ℕ) (st : MSt)
    (h1 : (env.mmSet (countMm st.trace)).res = 0)
    (h2 : (env.mmSet (countMm st.trace)).errStr = "") :
    set_state env s st =
      (.ok (), { st with trace := st.trace ++ [Cmd.mmSet s] }) := by
  simp [set_state, h1, h2]

/-- One exhausted attempt of init_position_sync on the never-ready driver:
home command, a full timed-out poll, then the timeout error. -/
theorem init_sync_stuck_zero (t : ℚ) (st : MSt) :
    init_position_sync neverReadyEnv t 0 st =
      (.error (.ccTimeoutError (some t)),
       { st with
         slept := st.slept + (natBound t : ℚ) * MOVEMENT_SLEEP_TIME,
         trace := st.trace ++ [Cmd.orHome] ++ List.replicate (natBound t) Cmd.ts }) := by
  rw [init_position_sync.eq_def]
  dsimp only
  rw [init_position_async_ok neverReadyEnv st rfl rfl]
  dsimp only
  rw [pollReady_stuck neverReadyEnv t 0 (natBound t)
    { st with trace := st.trace ++ [Cmd.orHome] } (by omega)
    (fun k _ => ⟨rfl, rfl⟩)]

/-- One failed attempt of init_position_sync on the never-ready driver with
retries left: home command, a full timed-out poll, then the recursive retry
with the same timeout and one retry fewer. -/
theorem init_sync_stuck_succ (t : ℚ) (n : ℕ) (st : MSt) :
    init_position_sync neverReadyEnv t (n + 1) st =
      init_position_sync neverReadyEnv t n
        { st with
          slept := st.slept + (natBound t : ℚ) * MOVEMENT_SLEEP_TIME,
          trace := st.trace ++ [Cmd.orHome] ++ List.replicate (natBound t) Cmd.ts } := by
  rw [init_position_sync.eq_def]
  dsimp only
  rw [init_position_async_ok neverReadyEnv st rfl rfl]
  dsimp only
  rw [pollReady_stuck neverReadyEnv t 0 (natBound t)
    { st with trace := st.trace ++ [Cmd.orHome] } (by omega)
    (fun k _ => ⟨rfl, rfl⟩)]

/-- Run of init_position_sync on the never-ready driver: all n_retry + 1
attempts are made (one OR command and one full timed-out poll each), then the
call fails with CCMotorTimeoutError carrying the timeout. -/
theorem init_sync_stuck (t : ℚ) (N : ℕ) (st : MSt) :
    init_position_sync neverReadyEnv t N st =
      (.error (.ccTimeoutError (some t)),
       { st with
         slept := st.slept + (((N + 1) * natBound t : ℕ) : ℚ) * MOVEMENT_SLEEP_TIME,
         trace := st.trace ++
           (List.replicate (N + 1) (Cmd.orHome :: List.replicate (natBound t) Cmd.ts)).flatten }) := by
  induction N generalizing st with
  | zero =>
    rw [init_sync_stuck_zero]
    refine congrArg (fun s => ((Except.error (PyError.ccTimeoutError (some t)) : Except PyError Unit), s)) ?_
    refine congrArg₂ (fun a b => ({ st with slept := a, trace := b } : MSt)) ?_ ?_
    · push_cast
      ring
    · simp [List.append_assoc]
  | succ n ih =>
    rw [init_sync_stuck_succ, ih]
    refine congrArg (fun s => ((Except.error (PyError.ccTimeoutError (some t)) : Except PyError Unit), s)) ?_
    refine congrArg₂ (fun a b => ({ st with slept := a, trace := b } : MSt)) ?_ ?_
    · push_cast
      ring
    · simp [List.append_assoc, List.replicate_succ]

/-! Machinery for move_absolute_sync on the driver where homing completes but
moves never do (stuckMoveEnv).  The TS queries of one full attempt cycle are:
one pre-flight check (ready), natBound timeout polls after the move (all
MOVING), and one poll after re-homing (ready) - natBound timeout + 2 queries
per cycle, so the TS call counter stays 0 modulo natBound timeout + 2 at the
start of every attempt. -/

theorem stuckMoveEnv_ts_ready {B n : ℕ}
    (h : n % (B + 2) = 0 ∨ n % (B + 2) = B + 1) :
    (stuckMoveEnv B).ts n = readyTS := by
  simp only [stuckMoveEnv]
  rw [if_pos h]

theorem stuckMoveEnv_ts_moving {B n : ℕ}
    (h : ¬ (n % (B + 2) = 0 ∨ n % (B + 2) = B + 1)) :
    (stuckMoveEnv B).ts n = movingTS := by
  simp only [stuckMoveEnv]
  rw [if_neg h]

theorem mod_in_middle {B c k : ℕ} (hc : c % (B + 2) = 0) (hk : k < B) :
    ¬ ((c + 1 + k) % (B + 2) = 0 ∨ (c + 1 + k) % (B + 2) = B + 1) := by
  have h1 : (c + 1 + k) % (B + 2) = (1 + k) % (B + 2) := by
    rw [show c + 1 + k = c + (1 + k) from by omega, Nat.add_mod, hc]
    simp
  rw [h1, Nat.mod_eq_of_lt (by omega)]
  omega

theorem mod_at_home {B c : ℕ} (hc : c % (B + 2) = 0) :
    (c + 1 + B) % (B + 2) = B + 1 := by
  rw [show c + 1 + B = c + (B + 1) from by omega, Nat.add_mod, hc]
  simp [Nat.mod_eq_of_lt (show B + 1 < B + 2 by omega)]

/-- The natural bound of the default homing timeout (30 seconds) is positive,
so the recovery poll of move_absolute_sync runs at least one iteration. -/
theorem natBound_thirty_pos : 0 < natBound 30 := by
  rw [natBound]
  norm_num

/-- The driver commands of one full failed attempt cycle of move_absolute_sync
on stuckMoveEnv: pre-flight TS, the absolute move, the timed-out poll, then
the recovery (enable, home, and the one successful recovery poll). -/
def cycleCmds (B : ℕ) (p : ℚ) : List Cmd :=
  [Cmd.ts, Cmd.paSet ((1/1000) * p)] ++ List.replicate B Cmd.ts ++
    [Cmd.mmSet 1, Cmd.orHome, Cmd.ts]

/-- The driver commands of the final attempt (no recovery follows). -/
def attemptCmds (B : ℕ) (p : ℚ) : List Cmd :=
  [Cmd.ts, Cmd.paSet ((1/1000) * p)] ++ List.replicate B Cmd.ts

/-- Reduction of set_enable when the MM_Set round trip succeeds. -/
theorem set_enable_ok (env : Env) (st : MSt)
    (h1 : (env.mmSet (countMm st.trace)).res = 0)
    (h2 : (env.mmSet (countMm st.trace)).errStr = "") :
    set_enable env st =
      (.ok (), { st with trace := st.trace ++ [Cmd.mmSet 1] }) :=
  set_state_ok env 1 st h1 h2

/-- Last attempt of move_absolute_sync on stuckMoveEnv: the pre-flight check
passes, the move is issued, the poll times out, and with no retries left the
call fails with CCMotorTimeoutError carrying the timeout. -/
theorem move_abs_stuck_zero (t p : ℚ) (hp : ¬ p > MAX_RUN) (st : MSt)
    (hc : countTs st.trace % (natBound t + 2) = 0) :
    move_absolute_sync (stuckMoveEnv (natBound t)) p t 0 st =
      (.error (.ccTimeoutError (some t)),
       { st with
         slept := st.slept + (natBound t : ℚ) * MOVEMENT_SLEEP_TIME,
         trace := st.trace ++ attemptCmds (natBound t) p }) := by
  rw [move_absolute_sync.eq_def]
  dsimp only
  rw [move_absolute_async_ok (stuckMoveEnv (natBound t)) p st hp
    (by rw [stuckMoveEnv_ts_ready (Or.inl hc)]; rfl) (by rw [stuckMoveEnv_ts_ready (Or.inl hc)]; rfl)
    rfl rfl]
  dsimp only
  rw [pollReady_stuck (stuckMoveEnv (natBound t)) t 0 (natBound t)
    { st with trace := st.trace ++ [Cmd.ts, Cmd.paSet ((1/1000) * p)] } (by omega)
    (by
      intro k hk
      have hcount : countTs (st.trace ++ [Cmd.ts, Cmd.paSet ((1/1000) * p)]) =
          countTs st.trace + 1 := by
        simp [countTs_append, countTs_cons, countTs_nil, Cmd.isTs, Cmd.isPa]
      rw [hcount, stuckMoveEnv_ts_moving (mod_in_middle hc hk)]
      exact ⟨rfl, rfl⟩)]
  simp [attemptCmds, List.append_assoc]

/-- A failed attempt of move_absolute_sync on stuckMoveEnv with retries left:
move, timed-out poll, re-enable, re-home (whose first poll sees ready), then
the recursive retry of the same move with one retry fewer. -/
theorem move_abs_stuck_succ (t p : ℚ) (hp : ¬ p > MAX_RUN) (n : ℕ) (st : MSt)
    (hc : countTs st.trace % (natBound t + 2) = 0) :
    move_absolute_sync (stuckMoveEnv (natBound t)) p t (n + 1) st =
      move_absolute_sync (stuckMoveEnv (natBound t)) p t n
        { st with
          slept := st.slept + (natBound t : ℚ) * MOVEMENT_SLEEP_TIME + MOVEMENT_SLEEP_TIME,
          trace := st.trace ++ cycleCmds (natBound t) p } := by
  rw [move_absolute_sync.eq_def]
  dsimp only
  rw [move_absolute_async_ok (stuckMoveEnv (natBound t)) p st hp
    (by rw [stuckMoveEnv_ts_ready (Or.inl hc)]; rfl) (by rw [stuckMoveEnv_ts_ready (Or.inl hc)]; rfl)
    rfl rfl]
  dsimp only
  rw [pollReady_stuck (stuckMoveEnv (natBound t)) t 0 (natBound t)
    { st with trace := st.trace ++ [Cmd.ts, Cmd.paSet ((1/1000) * p)] } (by omega)
    (by
      intro k hk
      have hcount : countTs (st.trace ++ [Cmd.ts, Cmd.paSet ((1/1000) * p)]) =
          countTs st.trace + 1 := by
        simp [countTs_append, countTs_cons, countTs_nil, Cmd.isTs, Cmd.isPa]
      rw [hcount, stuckMoveEnv_ts_moving (mod_in_middle hc hk)]
      exact ⟨rfl, rfl⟩)]
  dsimp only
  rw [set_enable_ok (stuckMoveEnv (natBound t)) _ rfl rfl]
  dsimp only
  rw [init_position_sync.eq_def]
  dsimp only
  rw [init_position_async_ok (stuckMoveEnv (natBound t)) _ rfl rfl]
  dsimp only
  have hcount2 : countTs ((((st.trace ++ [Cmd.ts, Cmd.paSet ((1/1000) * p)]) ++
      List.replicate (natBound t) Cmd.ts) ++ [Cmd.mmSet 1]) ++ [Cmd.orHome]) =
      countTs st.trace + 1 + natBound t := by
    simp [countTs_append, countTs_cons, countTs_nil, countTs_replicate,
      Cmd.isTs, Cmd.isPa, Cmd.isMm, Cmd.isOrHome]
    omega
  rw [pollReady_first_ready (stuckMoveEnv (natBound t)) 30 (natBound 30) _
    natBound_thirty_pos (by norm_num)
    (by rw [hcount2, stuckMoveEnv_ts_ready (Or.inr (mod_at_home hc))]; rfl)
    (by rw [hcount2, stuckMoveEnv_ts_ready (Or.inr (mod_at_home hc))]; rfl)]
  dsimp only
  refine congrArg (move_absolute_sync (stuckMoveEnv (natBound t)) p t n) ?_
  refine congrArg₂ (fun a b => ({ st with slept := a, trace := b } : MSt)) ?_ ?_
  · ring
  · simp [cycleCmds, List.append_assoc]

/-- Run of move_absolute_sync on stuckMoveEnv: n_retry + 1 attempts are made,
each issuing the same absolute move; the first n_retry failed attempts each
run a full timed-out poll and then recover (re-enable and re-home); the last
attempt times out with no retries left and the call fails with
CCMotorTimeoutError carrying the timeout. -/
theorem move_abs_stuck (t p : ℚ) (hp : ¬ p > MAX_RUN) (N : ℕ) (st : MSt)
    (hc : countTs st.trace % (natBound t + 2) = 0) :
    move_absolute_sync (stuckMoveEnv (natBound t)) p t N st =
      (.error (.ccTimeoutError (some t)),
       { st with
         slept := st.slept +
           (N : ℚ) * ((natBound t : ℚ) * MOVEMENT_SLEEP_TIME + MOVEMENT_SLEEP_TIME) +
           (natBound t : ℚ) * MOVEMENT_SLEEP_TIME,
         trace := st.trace ++ (List.replicate N (cycleCmds (natBound t) p)).flatten ++
           attemptCmds (natBound t) p }) := by
  induction N generalizing st with
  | zero =>
    rw [move_abs_stuck_zero t p hp st hc]
    refine congrArg (fun s => ((Except.error (PyError.ccTimeoutError (some t)) : Except PyError Unit), s)) ?_
    refine congrArg₂ (fun a b => ({ st with slept := a, trace := b } : MSt)) ?_ ?_
    · push_cast
      ring
    · simp
  | succ n ih =>
    rw [move_abs_stuck_succ t p hp n st hc]
    rw [ih _ (by
      simp only [countTs_append]
      rw [show countTs (cycleCmds (natBound t) p) = natBound t + 2 from by
        simp [cycleCmds, countTs_append, countTs_cons, countTs_nil,
          countTs_replicate, Cmd.isTs, Cmd.isPa, Cmd.isMm, Cmd.isOrHome]
        omega]
      rw [show countTs st.trace + (natBound t + 2) = countTs st.trace + (natBound t + 2) * 1 from by omega]
      rw [Nat.add_mul_mod_self_left]
      exact hc)]
    refine congrArg (fun s => ((Except.error (PyError.ccTimeoutError (some t)) : Except PyError Unit), s)) ?_
    refine congrArg₂ (fun a b => ({ st with slept := a, trace := b } : MSt)) ?_ ?_
    · push_cast
      ring
    · simp [List.append_assoc, List.replicate_succ]

/-- Reduction of the state property when the TS round trip has an empty
error string. -/
theorem state_red (env : Env) (st : MSt)
    (he : (env.ts (countTs st.trace)).errStr = "") :
    state env st =
      (.ok (env.ts (countTs st.trace)).state,
       { st with trace := st.trace ++ [Cmd.ts] }) := by
  simp [state, get_state, he]

/-! Claim theorems. -/

/-- C1: any absolute target above MAX_RUN makes move_absolute_async (and
hence move_absolute_sync) fail with CCMotorRangeExceededError carrying the
requested position and MAX_RUN before any driver round trip (the state is
unchanged); any relative delta with cur_pos + delta above MAX_RUN makes
move_relative_async fail with CCMotorRangeExceededError carrying
pos = cur_pos + delta and max_pos = MAX_RUN with only the TP position query
on the trace, so the move command is never issued. -/
theorem C1_range_exceeded_before_write (env : Env) (st : MSt) :
    (∀ p : ℚ, p > MAX_RUN →
      move_absolute_async env p st =
        (.error (.ccRangeExceededError (some p) (some MAX_RUN)), st)) ∧
    (∀ (p t : ℚ) (N : ℕ), p > MAX_RUN →
      move_absolute_sync env p t N st =
        (.error (.ccRangeExceededError (some p) (some MAX_RUN)), st)) ∧
    (∀ d : ℚ, (env.tp (countTp st.trace)).res = 0 →
      (env.tp (countTp st.trace)).errStr = "" →
      (env.tp (countTp st.trace)).resp * 1000 + d > MAX_RUN →
      move_relative_async env d st =
        (.error (.ccRangeExceededError
          (some ((env.tp (countTp st.trace)).resp * 1000 + d)) (some MAX_RUN)),
         { st with trace := st.trace ++ [Cmd.tp] }) ∧
      (st.trace ++ [Cmd.tp]).filter Cmd.isWrite = st.trace.filter Cmd.isWrite) := by
  have habs : ∀ p : ℚ, p > MAX_RUN →
      move_absolute_async env p st =
        (.error (.ccRangeExceededError (some p) (some MAX_RUN)), st) := by
    intro p hp
    rw [move_absolute_async, if_pos hp]
  refine ⟨habs, ?_, ?_⟩
  · intro p t N hp
    rw [move_absolute_sync.eq_def]
    dsimp only
    rw [habs p hp]
  · intro d h1 h2 hr
    constructor
    · rw [move_relative_async, cur_pos_ok env st h1 h2]
      dsimp only
      rw [if_pos hr]
    · simp [List.filter_append, Cmd.isWrite]

/-- Witness for C1 at the scenario of the specification: an axis at
position 1000 micrometers (TP reads 1 mm), a relative move by 40000 fails
with pos 41000 and max 37000; an absolute move to 40000 fails likewise. -/
theorem C1_range_exceeded_before_write_witness :
    move_absolute_async alwaysReadyEnv 40000 initSt =
      (.error (.ccRangeExceededError (some 40000) (some MAX_RUN)), initSt) ∧
    move_absolute_sync alwaysReadyEnv 40000 30 3 initSt =
      (.error (.ccRangeExceededError (some 40000) (some MAX_RUN)), initSt) ∧
    move_relative_async alwaysReadyEnv 40000 initSt =
      (.error (.ccRangeExceededError (some 41000) (some MAX_RUN)),
       { initSt with trace := initSt.trace ++ [Cmd.tp] }) := by
  have h := C1_range_exceeded_before_write alwaysReadyEnv initSt
  refine ⟨h.1 40000 (by norm_num [MAX_RUN]), h.2.1 40000 30 3 (by norm_num [MAX_RUN]), ?_⟩
  have h3 := (h.2.2 40000 rfl rfl
    (by norm_num [MAX_RUN, alwaysReadyEnv, neverReadyEnv, initSt, countTp])).1
  rw [h3]
  norm_num [alwaysReadyEnv, neverReadyEnv, initSt, countTp]

/-- C2: with the controller in any state outside READY_STATES (and, for the
relative move, an in-range request so that the range pre-check passes), every
move call fails with CCMotorStateError whose message carries the offending
state string, and only read-only queries (TP, TS) are added to the trace, so
no transport write is issued; the sync wrappers fail identically because the
error propagates before any polling. -/
theorem C2_not_ready_state_error (env : Env) (st : MSt) (s : String)
    (he0 : (env.ts (countTs st.trace)).errStr = "")
    (hs0 : (env.ts (countTs st.trace)).state = s)
    (he1 : (env.ts (countTs st.trace + 1)).errStr = "")
    (hs1 : (env.ts (countTs st.trace + 1)).state = s)
    (hnr : READY_STATES.contains s = false) :
    (∀ p : ℚ, ¬ p > MAX_RUN →
      move_absolute_async env p st =
        (.error (.ccStateError ("Stage not ready. Current state is : " ++ s)),
         { st with trace := st.trace ++ [Cmd.ts, Cmd.ts] }) ∧
      (∀ (t : ℚ) (N : ℕ), move_absolute_sync env p t N st =
        (.error (.ccStateError ("Stage not ready. Current state is : " ++ s)),
         { st with trace := st.trace ++ [Cmd.ts, Cmd.ts] }))) ∧
    (∀ d : ℚ, (env.tp (countTp st.trace)).res = 0 →
      (env.tp (countTp st.trace)).errStr = "" →
      ¬ (env.tp (countTp st.trace)).resp * 1000 + d > MAX_RUN →
      move_relative_async env d st =
        (.error (.ccStateError ("Stage not ready: " ++ s)),
         { st with trace := st.trace ++ [Cmd.tp, Cmd.ts, Cmd.ts] }) ∧
      (∀ t : ℚ, move_relative_sync env d t st =
        (.error (.ccStateError ("Stage not ready: " ++ s)),
         { st with trace := st.trace ++ [Cmd.tp, Cmd.ts, Cmd.ts] }))) ∧
    (st.trace ++ [Cmd.ts, Cmd.ts]).filter Cmd.isWrite = st.trace.filter Cmd.isWrite ∧
    (st.trace ++ [Cmd.tp, Cmd.ts, Cmd.ts]).filter Cmd.isWrite = st.trace.filter Cmd.isWrite := by
  have hcTs : countTs (st.trace ++ [Cmd.ts]) = countTs st.trace + 1 := by
    simp [countTs_append, countTs_cons, countTs_nil, Cmd.isTs]
  refine ⟨?_, ?_, by simp [List.filter_append, Cmd.isWrite],
    by simp [List.filter_append, Cmd.isWrite]⟩
  · intro p hp
    have habs : move_absolute_async env p st =
        (.error (.ccStateError ("Stage not ready. Current state is : " ++ s)),
         { st with trace := st.trace ++ [Cmd.ts, Cmd.ts] }) := by
      rw [move_absolute_async, if_neg hp, is_ready_red env st he0]
      dsimp only
      rw [hs0, hnr]
      rw [if_pos (by simp)]
      rw [state_red env _ (by rw [hcTs]; exact he1)]
      rw [hcTs, hs1]
      simp
    refine ⟨habs, ?_⟩
    intro t N
    rw [move_absolute_sync.eq_def]
    dsimp only
    rw [habs]
  · intro d h1 h2 hr
    have hcTs2 : countTs (st.trace ++ [Cmd.tp]) = countTs st.trace := by
      simp [countTs_append, countTs_cons, countTs_nil, Cmd.isTs, Cmd.isTp]
    have hcTs3 : countTs ((st.trace ++ [Cmd.tp]) ++ [Cmd.ts]) = countTs st.trace + 1 := by
      simp [countTs_append, countTs_cons, countTs_nil, Cmd.isTs, Cmd.isTp]
    have hrel : move_relative_async env d st =
        (.error (.ccStateError ("Stage not ready: " ++ s)),
         { st with trace := st.trace ++ [Cmd.tp, Cmd.ts, Cmd.ts] }) := by
      rw [move_relative_async, cur_pos_ok env st h1 h2]
      dsimp only
      rw [if_neg hr]
      rw [is_ready_red env _ (by rw [hcTs2]; exact he0)]
      dsimp only
      rw [hcTs2, hs0, hnr]
      rw [if_pos (by simp)]
      rw [state_red env _ (by rw [hcTs3]; exact he1)]
      rw [hcTs3, hs1]
      simp
    refine ⟨hrel, ?_⟩
    intro t
    rw [move_relative_sync, hrel]

/-- Witness for C2 at the scenario of the specification: state 28 (MOVING);
an absolute move to 500 fails with a StateError mentioning state 28, as do
the relative move by 100 and both sync wrappers. -/
theorem C2_not_ready_state_error_witness :
    move_absolute_async neverReadyEnv 500 initSt =
      (.error (.ccStateError ("Stage not ready. Current state is : " ++ "28")),
       { initSt with trace := initSt.trace ++ [Cmd.ts, Cmd.ts] }) ∧
    move_absolute_sync neverReadyEnv 500 30 3 initSt =
      (.error (.ccStateError ("Stage not ready. Current state is : " ++ "28")),
       { initSt with trace := initSt.trace ++ [Cmd.ts, Cmd.ts] }) ∧
    move_relative_sync neverReadyEnv 100 30 initSt =
      (.error (.ccStateError ("Stage not ready: " ++ "28")),
       { initSt with trace := initSt.trace ++ [Cmd.tp, Cmd.ts, Cmd.ts] }) := by
  have h := C2_not_ready_state_error neverReadyEnv initSt "28" rfl rfl rfl rfl (by decide)
  exact ⟨(h.1 500 (by norm_num [MAX_RUN])).1,
    (h.1 500 (by norm_num [MAX_RUN])).2 30 3,
    (h.2.1 100 rfl rfl
      (by norm_num [MAX_RUN, neverReadyEnv, initSt, countTp])).2 30⟩

/-- C4: a velocity request above MAX_VELOCITY is never rejected: both the
velocity setter and set_homing_velocity transmit exactly MAX_VELOCITY (which
differs from the requested value), whatever the driver answers; and when the
driver round trip succeeds the call returns normally. -/
theorem C4_velocity_clamped (env : Env) (st : MSt) (v : ℚ) (hv : v > MAX_VELOCITY) :
    (velocity_set env v st).2 =
      { st with trace := st.trace ++ [Cmd.vaSet MAX_VELOCITY] } ∧
    (set_homing_velocity env v st).2 =
      { st with trace := st.trace ++ [Cmd.ohSet MAX_VELOCITY] } ∧
    MAX_VELOCITY ≠ v ∧
    ((env.vaSet (countVaSet st.trace)).res = 0 →
      (env.vaSet (countVaSet st.trace)).errStr = "" →
      (velocity_set env v st).1 = .ok ()) ∧
    ((env.ohSet (countOh st.trace)).res = 0 →
      (env.ohSet (countOh st.trace)).errStr = "" →
      (set_homing_velocity env v st).1 = .ok ()) := by
  refine ⟨?_, ?_, ne_of_lt hv, ?_, ?_⟩
  · rw [velocity_set]
    rw [if_pos hv]
    split <;> rfl
  · rw [set_homing_velocity]
    rw [if_pos hv]
    split <;> rfl
  · intro h1 h2
    rw [velocity_set]
    rw [if_pos hv, if_neg (by simp [h1, h2])]
  · intro h1 h2
    rw [set_homing_velocity]
    rw [if_pos hv, if_neg (by simp [h1, h2])]

/-- Witness for C4 at the scenario of the specification: requesting 0.9 with
MAX_VELOCITY = 0.4 transmits exactly 0.4 on both paths. -/
theorem C4_velocity_clamped_witness :
    (velocity_set alwaysReadyEnv (9/10) initSt).2 =
      { initSt with trace := initSt.trace ++ [Cmd.vaSet MAX_VELOCITY] } ∧
    (set_homing_velocity alwaysReadyEnv (9/10) initSt).2 =
      { initSt with trace := initSt.trace ++ [Cmd.ohSet MAX_VELOCITY] } ∧
    MAX_VELOCITY ≠ 9/10 ∧
    (velocity_set alwaysReadyEnv (9/10) initSt).1 = .ok () ∧
    (set_homing_velocity alwaysReadyEnv (9/10) initSt).1 = .ok () := by
  have h := C4_velocity_clamped alwaysReadyEnv initSt (9/10)
    (by norm_num [MAX_VELOCITY])
  exact ⟨h.1, h.2.1, h.2.2.1, h.2.2.2.1 rfl rfl, h.2.2.2.2 rfl rfl⟩

/-- C8: positions cross the public boundary in micrometers: cur_pos is the
raw millimeter TP reading multiplied by exactly 1000, and both move commands
transmit 1e-3 times their micrometer argument. -/
theorem C8_micrometer_boundary (env : Env) (st : MSt) :
    ((env.tp (countTp st.trace)).res = 0 →
      (env.tp (countTp st.trace)).errStr = "" →
      cur_pos env st =
        (.ok ((env.tp (countTp st.trace)).resp * 1000),
         { st with trace := st.trace ++ [Cmd.tp] })) ∧
    (∀ p : ℚ, ¬ p > MAX_RUN →
      (env.ts (countTs st.trace)).errStr = "" →
      READY_STATES.contains (env.ts (countTs st.trace)).state = true →
      (env.paSet (countPa st.trace)).res = 0 →
      (env.paSet (countPa st.trace)).errStr = "" →
      move_absolute_async env p st =
        (.ok (), { st with trace := st.trace ++ [Cmd.ts, Cmd.paSet ((1/1000) * p)] })) ∧
    (∀ d : ℚ, (env.tp (countTp st.trace)).res = 0 →
      (env.tp (countTp st.trace)).errStr = "" →
      ¬ (env.tp (countTp st.trace)).resp * 1000 + d > MAX_RUN →
      (env.ts (countTs st.trace)).errStr = "" →
      READY_STATES.contains (env.ts (countTs st.trace)).state = true →
      (env.prSet (countPr st.trace)).res = 0 →
      (env.prSet (countPr st.trace)).errStr = "" →
      move_relative_async env d st =
        (.ok (), { st with trace := st.trace ++ [Cmd.tp, Cmd.ts, Cmd.prSet ((1/1000) * d)] })) := by
  exact ⟨fun h1 h2 => cur_pos_ok env st h1 h2,
    fun p hp he hs h1 h2 => move_absolute_async_ok env p st hp he hs h1 h2,
    fun d h1 h2 hr he hs hp1 hp2 =>
      move_relative_async_ok env d st h1 h2 hr he hs hp1 hp2⟩

/-- Witness for C8: with a TP reading of 1 mm, cur_pos is 1000 micrometers;
moving to 500 micrometers transmits 0.5 mm and moving by 100 micrometers
transmits 0.1 mm. -/
theorem C8_micrometer_boundary_witness :
    cur_pos alwaysReadyEnv initSt =
      (.ok 1000, { initSt with trace := initSt.trace ++ [Cmd.tp] }) ∧
    move_absolute_async alwaysReadyEnv 500 initSt =
      (.ok (), { initSt with trace := initSt.trace ++ [Cmd.ts, Cmd.paSet (1/2)] }) ∧
    move_relative_async alwaysReadyEnv 100 initSt =
      (.ok (), { initSt with trace := initSt.trace ++ [Cmd.tp, Cmd.ts, Cmd.prSet (1/10)] }) := by
  have h := C8_micrometer_boundary alwaysReadyEnv initSt
  refine ⟨?_, ?_, ?_⟩
  · rw [h.1 rfl rfl]
    norm_num [alwaysReadyEnv, neverReadyEnv, initSt, countTp]
  · rw [h.2.1 500 (by norm_num [MAX_RUN]) rfl (by decide) rfl rfl]
    norm_num
  · rw [h.2.2 100 rfl rfl
      (by norm_num [MAX_RUN, alwaysReadyEnv, neverReadyEnv, initSt, countTp])
      rfl (by decide) rfl rfl]
    norm_num

/-- C9: the range check runs before the ready-state check in both async move
commands, so whatever the driver reports for the state (in particular any
non-ready state), an out-of-range request fails with
CCMotorRangeExceededError and never with CCMotorStateError. -/
theorem C9_range_precedes_state (env : Env) (st : MSt) :
    (∀ p : ℚ, p > MAX_RUN →
      (move_absolute_async env p st).1 =
        .error (.ccRangeExceededError (some p) (some MAX_RUN)) ∧
      ∀ m : String, (move_absolute_async env p st).1 ≠ .error (.ccStateError m)) ∧
    (∀ d : ℚ, (env.tp (countTp st.trace)).res = 0 →
      (env.tp (countTp st.trace)).errStr = "" →
      (env.tp (countTp st.trace)).resp * 1000 + d > MAX_RUN →
      (move_relative_async env d st).1 =
        .error (.ccRangeExceededError
          (some ((env.tp (countTp st.trace)).resp * 1000 + d)) (some MAX_RUN)) ∧
      ∀ m : String, (move_relative_async env d st).1 ≠ .error (.ccStateError m)) := by
  constructor
  · intro p hp
    have h : (move_absolute_async env p st).1 =
        .error (.ccRangeExceededError (some p) (some MAX_RUN)) := by
      rw [move_absolute_async, if_pos hp]
    refine ⟨h, fun m hm => ?_⟩
    rw [h] at hm
    simp at hm
  · intro d h1 h2 hr
    have h : (move_relative_async env d st).1 =
        .error (.ccRangeExceededError
          (some ((env.tp (countTp st.trace)).resp * 1000 + d)) (some MAX_RUN)) := by
      rw [move_relative_async, cur_pos_ok env st h1 h2]
      dsimp only
      rw [if_pos hr]
    refine ⟨h, fun m hm => ?_⟩
    rw [h] at hm
    simp at hm

/-- Witness for C9: with the driver stuck in state 28 (MOVING, not ready),
an absolute move to 40000 and a relative move by 40000 (from 1000) both fail
with the range error, not the state error. -/
theorem C9_range_precedes_state_witness :
    (move_absolute_async neverReadyEnv 40000 initSt).1 =
      .error (.ccRangeExceededError (some 40000) (some MAX_RUN)) ∧
    (move_absolute_async neverReadyEnv 40000 initSt).1 ≠
      .error (.ccStateError "Stage not ready. Current state is : 28") ∧
    (move_relative_async neverReadyEnv 40000 initSt).1 =
      .error (.ccRangeExceededError (some 41000) (some MAX_RUN)) ∧
    (move_relative_async neverReadyEnv 40000 initSt).1 ≠
      .error (.ccStateError "Stage not ready: 28") := by
  have h := C9_range_precedes_state neverReadyEnv initSt
  have h1 := h.1 40000 (by norm_num [MAX_RUN])
  have h2 := h.2 40000 rfl rfl
    (by norm_num [MAX_RUN, neverReadyEnv, initSt, countTp])
  refine ⟨h1.1, h1.2 _, ?_, h2.2 _⟩
  rw [h2.1]
  norm_num [neverReadyEnv, initSt, countTp]

/-- Uniform unfolding of is_ready: one TS query, a communication error when
its error string is non-empty, else the ready test on the reported state. -/
theorem is_ready_eq (env : Env) (st : MSt) :
    is_ready env st =
      (if (env.ts (countTs st.trace)).errStr.length ≠ 0
       then .error (.ccCommunicationError
         ("Oops: Cannot get the state. Error: " ++ (env.ts (countTs st.trace)).errStr))
       else .ok (READY_STATES.contains (env.ts (countTs st.trace)).state),
       { st with trace := st.trace ++ [Cmd.ts] }) := by
  by_cases h : (env.ts (countTs st.trace)).errStr.length ≠ 0
  · rw [is_ready, state, get_state, if_pos h, if_pos h]
  · rw [is_ready, state, get_state, if_neg h, if_neg h]

/-- Uniform unfolding of the state property. -/
theorem state_eq (env : Env) (st : MSt) :
    state env st =
      (if (env.ts (countTs st.trace)).errStr.length ≠ 0
       then .error (.ccCommunicationError
         ("Oops: Cannot get the state. Error: " ++ (env.ts (countTs st.trace)).errStr))
       else .ok (env.ts (countTs st.trace)).state,
       { st with trace := st.trace ++ [Cmd.ts] }) := by
  by_cases h : (env.ts (countTs st.trace)).errStr.length ≠ 0
  · rw [state, get_state, if_pos h, if_pos h]
  · rw [state, get_state, if_neg h, if_neg h]

/-- Uniform unfolding of cur_pos: one TP query, a communication error on a
driver fault, else the millimeter reading times 1000. -/
theorem cur_pos_eq (env : Env) (st : MSt) :
    cur_pos env st =
      (if (env.tp (countTp st.trace)).res ≠ 0 ∨ (env.tp (countTp st.trace)).errStr ≠ ""
       then .error (.ccCommunicationError
         ("Current Position: result=" ++ toString (env.tp (countTp st.trace)).res ++
          ", response=" ++ toString (env.tp (countTp st.trace)).resp ++
          ", errString=\"" ++ (env.tp (countTp st.trace)).errStr ++ "\""))
       else .ok ((env.tp (countTp st.trace)).resp * 1000),
       { st with trace := st.trace ++ [Cmd.tp] }) := by
  by_cases h : (env.tp (countTp st.trace)).res ≠ 0 ∨ (env.tp (countTp st.trace)).errStr ≠ ""
  · rw [cur_pos, cur_pos_mm, if_pos h, if_pos h]
  · rw [cur_pos, cur_pos_mm, if_neg h, if_neg h]

/-- In-range absolute moves never produce a range error, whatever the driver
answers: the only possible outcomes are a communication error from the state
query, a state error, a ValueError from the move round trip, or success. -/
theorem move_absolute_async_no_range (env : Env) (p : ℚ) (st : MSt)
    (hp : ¬ p > MAX_RUN) :
    ∀ x y : Option ℚ,
      (move_absolute_async env p st).1 ≠ .error (.ccRangeExceededError x y) := by
  intro x y
  rw [move_absolute_async, if_neg hp, is_ready_eq]
  dsimp only
  by_cases h1 : (env.ts (countTs st.trace)).errStr.length ≠ 0
  · rw [if_pos h1]
    simp
  · rw [if_neg h1]
    dsimp only
    by_cases h2 : READY_STATES.contains (env.ts (countTs st.trace)).state = true
    · rw [if_neg (not_not_intro h2)]
      by_cases h3 : (env.paSet (countPa (st.trace ++ [Cmd.ts]))).res ≠ 0 ∨
          (env.paSet (countPa (st.trace ++ [Cmd.ts]))).errStr ≠ ""
      · rw [if_pos h3]
        simp
      · rw [if_neg h3]
        simp
    · rw [if_pos h2, state_eq]
      dsimp only
      by_cases h3 : (env.ts (countTs (st.trace ++ [Cmd.ts]))).errStr.length ≠ 0
      · rw [if_pos h3]
        simp
      · rw [if_neg h3]
        simp

/-- Limits-independence of move_absolute_async: the cached min_limit and
max_limit fields influence neither the result nor the driver interaction. -/
theorem move_absolute_async_limits (env : Env) (p : ℚ) (st : MSt) (a b : Option ℚ) :
    move_absolute_async env p { st with min_limit := a, max_limit := b } =
      ((move_absolute_async env p st).1,
       { (move_absolute_async env p st).2 with min_limit := a, max_limit := b }) := by
  by_cases hp : p > MAX_RUN
  · rw [move_absolute_async, move_absolute_async]
    simp only [if_pos hp]
  · rw [move_absolute_async, move_absolute_async]
    simp only [if_neg hp]
    rw [is_ready_eq, is_ready_eq]
    dsimp only
    by_cases h1 : (env.ts (countTs st.trace)).errStr.length ≠ 0
    · simp only [if_pos h1]
    · simp only [if_neg h1]
      by_cases h2 : READY_STATES.contains (env.ts (countTs st.trace)).state = true
      · simp only [if_neg (not_not_intro h2)]
        by_cases h3 : (env.paSet (countPa (st.trace ++ [Cmd.ts]))).res ≠ 0 ∨
            (env.paSet (countPa (st.trace ++ [Cmd.ts]))).errStr ≠ ""
        · simp only [if_pos h3]
        · simp only [if_neg h3]
      · simp only [if_pos h2]
        rw [state_eq, state_eq]
        dsimp only
        by_cases h3 : (env.ts (countTs (st.trace ++ [Cmd.ts]))).errStr.length ≠ 0
        · simp only [if_pos h3]
        · simp only [if_neg h3]

/-- Limits-independence of move_relative_async. -/
theorem move_relative_async_limits (env : Env) (d : ℚ) (st : MSt) (a b : Option ℚ) :
    (move_relative_async env d st).1 =
      (move_relative_async env d { st with min_limit := a, max_limit := b }).1 ∧
    (move_relative_async env d { st with min_limit := a, max_limit := b }).2 =
      { (move_relative_async env d st).2 with min_limit := a, max_limit := b } := by
  have key : move_relative_async env d { st with min_limit := a, max_limit := b } =
      ((move_relative_async env d st).1,
       { (move_relative_async env d st).2 with min_limit := a, max_limit := b }) := by
    rw [move_relative_async, move_relative_async, cur_pos_eq, cur_pos_eq]
    dsimp only
    by_cases h0 : (env.tp (countTp st.trace)).res ≠ 0 ∨ (env.tp (countTp st.trace)).errStr ≠ ""
    · simp only [if_pos h0]
    · simp only [if_neg h0]
      by_cases hr : (env.tp (countTp st.trace)).resp * 1000 + d > MAX_RUN
      · simp only [if_pos hr]
      · simp only [if_neg hr]
        rw [is_ready_eq, is_ready_eq]
        dsimp only
        by_cases h1 : (env.ts (countTs (st.trace ++ [Cmd.tp]))).errStr.length ≠ 0
        · simp only [if_pos h1]
        · simp only [if_neg h1]
          by_cases h2 : READY_STATES.contains
              (env.ts (countTs (st.trace ++ [Cmd.tp]))).state = true
          · simp only [if_neg (not_not_intro h2)]
            by_cases h3 : (env.prSet (countPr ((st.trace ++ [Cmd.tp]) ++ [Cmd.ts]))).res ≠ 0 ∨
                (env.prSet (countPr ((st.trace ++ [Cmd.tp]) ++ [Cmd.ts]))).errStr ≠ ""
            · simp only [if_pos h3]
            · simp only [if_neg h3]
          · simp only [if_pos h2]
            rw [state_eq, state_eq]
            dsimp only
            by_cases h3 : (env.ts (countTs ((st.trace ++ [Cmd.tp]) ++ [Cmd.ts]))).errStr.length ≠ 0
            · simp only [if_pos h3]
            · simp only [if_neg h3]
  exact ⟨by rw [key], by rw [key]⟩

/-- C10: no move operation enforces a lower bound or consults the cached
controller limits: every target at most MAX_RUN - negative targets included -
passes the range check (no CCMotorRangeExceededError is possible) and, when
the state is ready, the move is issued; the min_limit and max_limit fields
affect neither move_absolute_async nor move_relative_async in any way; and
get_limits is what reads and caches them. -/
theorem C10_no_lower_bound_limits_uncached (env : Env) (st : MSt) :
    (∀ p : ℚ, ¬ p > MAX_RUN → ∀ x y : Option ℚ,
      (move_absolute_async env p st).1 ≠ .error (.ccRangeExceededError x y)) ∧
    (∀ p : ℚ, ¬ p > MAX_RUN →
      (env.ts (countTs st.trace)).errStr = "" →
      READY_STATES.contains (env.ts (countTs st.trace)).state = true →
      (env.paSet (countPa st.trace)).res = 0 →
      (env.paSet (countPa st.trace)).errStr = "" →
      move_absolute_async env p st =
        (.ok (), { st with trace := st.trace ++ [Cmd.ts, Cmd.paSet ((1/1000) * p)] })) ∧
    (∀ (p : ℚ) (a b : Option ℚ),
      move_absolute_async env p { st with min_limit := a, max_limit := b } =
        ((move_absolute_async env p st).1,
         { (move_absolute_async env p st).2 with min_limit := a, max_limit := b }) ∧
      move_relative_async env p { st with min_limit := a, max_limit := b } =
        ((move_relative_async env p st).1,
         { (move_relative_async env p st).2 with min_limit := a, max_limit := b })) ∧
    ((env.slGet (countSl st.trace)).res = 0 →
     (env.slGet (countSl st.trace)).errStr = "" →
     (env.srGet (countSr (st.trace ++ [Cmd.slGet]))).res = 0 →
     (env.srGet (countSr (st.trace ++ [Cmd.slGet]))).errStr = "" →
      get_limits env st =
        (.ok ((env.slGet (countSl st.trace)).resp,
              (env.srGet (countSr (st.trace ++ [Cmd.slGet]))).resp),
         { st with trace := st.trace ++ [Cmd.slGet, Cmd.srGet],
                   min_limit := some (env.slGet (countSl st.trace)).resp,
                   max_limit := some (env.srGet (countSr (st.trace ++ [Cmd.slGet]))).resp })) := by
  refine ⟨fun p hp => move_absolute_async_no_range env p st hp,
    fun p hp he hs h1 h2 => move_absolute_async_ok env p st hp he hs h1 h2,
    fun p a b => ⟨move_absolute_async_limits env p st a b,
      Prod.ext_iff.mpr ⟨(move_relative_async_limits env p st a b).1.symm,
        (move_relative_async_limits env p st a b).2⟩⟩,
    ?_⟩
  intro h1 h2 h3 h4
  rw [get_limits]
  rw [if_neg (by simp [h1, h2])]
  dsimp only
  rw [if_neg (by simp [h3, h4])]
  simp [List.append_assoc]

/-- Witness for C10: the controller reports software limits 0 and 37 (cached
by get_limits), yet an absolute move to -5000 micrometers - below the cached
lower limit - raises no range error and transmits the move; and explicitly
cached limits do not change what a move does. -/
theorem C10_no_lower_bound_limits_uncached_witness :
    (move_absolute_async alwaysReadyEnv (-5000) initSt).1 ≠
      .error (.ccRangeExceededError (some (-5000)) (some MAX_RUN)) ∧
    move_absolute_async alwaysReadyEnv (-5000) initSt =
      (.ok (), { initSt with trace := initSt.trace ++ [Cmd.ts, Cmd.paSet (-5)] }) ∧
    move_absolute_async alwaysReadyEnv (-5000)
        { initSt with min_limit := some 0, max_limit := some 37 } =
      ((move_absolute_async alwaysReadyEnv (-5000) initSt).1,
       { (move_absolute_async alwaysReadyEnv (-5000) initSt).2 with
         min_limit := some 0, max_limit := some 37 }) ∧
    get_limits alwaysReadyEnv initSt =
      (.ok (0, 37),
       { initSt with trace := initSt.trace ++ [Cmd.slGet, Cmd.srGet],
                     min_limit := some 0, max_limit := some 37 }) := by
  have h := C10_no_lower_bound_limits_uncached alwaysReadyEnv initSt
  refine ⟨h.1 (-5000) (by norm_num [MAX_RUN]) (some (-5000)) (some MAX_RUN), ?_, ?_, ?_⟩
  · rw [h.2.1 (-5000) (by norm_num [MAX_RUN]) rfl (by decide) rfl rfl]
    norm_num
  · exact (h.2.2.1 (-5000) (some 0) (some 37)).1
  · rw [h.2.2.2 rfl rfl rfl rfl]
    norm_num [alwaysReadyEnv, neverReadyEnv, initSt, countSl, countSr]

/-- The driver environment exhibiting the get_state result-code gap: the TS
round trip reports the fault code -1 with an empty error string. -/
def tsFaultCodeEnv : Env :=
  { neverReadyEnv with ts := fun _ => ⟨-1, "", "32", ""⟩ }

/-- The driver environment on which every round trip reports result code -1
with error string E. -/
def allFaultEnv : Env where
  ts := fun _ => ⟨-1, "", "28", "E"⟩
  tp := fun _ => ⟨-1, 1, "E"⟩
  slGet := fun _ => ⟨-1, 0, "E"⟩
  srGet := fun _ => ⟨-1, 37, "E"⟩
  vaGet := fun _ => ⟨-1, 1/10, "E"⟩
  prSet := fun _ => ⟨-1, "E"⟩
  paSet := fun _ => ⟨-1, "E"⟩
  mmSet := fun _ => ⟨-1, "E"⟩
  ohSet := fun _ => ⟨-1, "E"⟩
  vaSet := fun _ => ⟨-1, "E"⟩
  orCmd := fun _ => ⟨-1, "E"⟩

/-- The driver environment that accepts queries and the pre-flight state
check but rejects the two move set commands with a non-empty error string. -/
def moveFaultEnv : Env :=
  { alwaysReadyEnv with
    prSet := fun _ => ⟨-1, "bad"⟩
    paSet := fun _ => ⟨-1, "bad"⟩ }

/-- Counterexample to C6 as stated: get_state checks only the error string,
so a TS round trip whose result code is -1 (a transport-level fault) with an
empty error string raises nothing at all - no CommunicationError, although no
StateError or RangeExceededError applies either - and the fault is silently
swallowed. -/
theorem C6_counterexample :
    (tsFaultCodeEnv.ts 0).res ≠ 0 ∧
    get_state tsFaultCodeEnv initSt =
      (.ok ⟨"32", ""⟩, { initSt with trace := initSt.trace ++ [Cmd.ts] }) := by
  constructor
  · decide
  · rw [get_state]
    simp [tsFaultCodeEnv, neverReadyEnv, initSt, countTs]

theorem length_ne_zero_of_ne_empty {s : String} (h : s ≠ "") : s.length ≠ 0 := by
  intro hl
  apply h
  cases s with
  | mk data =>
    simp [String.length] at hl
    simp [hl]

/-- C6 (amended): transport faults reported through the checked channels are
always surfaced: every operation that inspects its round trip raises
CCMotorCommunicationError on a non-zero result code or non-empty error
string, except the two move commands, which raise a plain ValueError for a
faulted move round trip (after their pre-flight checks passed), and except
get_state, which raises CCMotorCommunicationError only on a non-empty error
string and silently ignores the result code. -/
theorem C6_amended_fault_surfacing (env : Env) (st : MSt) (s : ℕ) (v : ℚ) :
    ((env.ts (countTs st.trace)).errStr ≠ "" →
      (get_state env st).1 = .error (.ccCommunicationError
        ("Oops: Cannot get the state. Error: " ++ (env.ts (countTs st.trace)).errStr))) ∧
    ((env.ts (countTs st.trace)).errStr = "" →
      (get_state env st).1 =
        .ok ⟨(env.ts (countTs st.trace)).state, (env.ts (countTs st.trace)).error⟩) ∧
    ((env.mmSet (countMm st.trace)).res ≠ 0 ∨ (env.mmSet (countMm st.trace)).errStr ≠ "" →
      ∃ m, (set_state env s st).1 = .error (.ccCommunicationError m)) ∧
    ((env.ohSet (countOh st.trace)).res ≠ 0 ∨ (env.ohSet (countOh st.trace)).errStr ≠ "" →
      ∃ m, (set_homing_velocity env v st).1 = .error (.ccCommunicationError m)) ∧
    ((env.orCmd (countOr st.trace)).res ≠ 0 ∨ (env.orCmd (countOr st.trace)).errStr ≠ "" →
      ∃ m, (init_position_async env st).1 = .error (.ccCommunicationError m)) ∧
    ((env.tp (countTp st.trace)).res ≠ 0 ∨ (env.tp (countTp st.trace)).errStr ≠ "" →
      ∃ m, (cur_pos env st).1 = .error (.ccCommunicationError m)) ∧
    ((env.vaGet (countVaGet st.trace)).res ≠ 0 ∨ (env.vaGet (countVaGet st.trace)).errStr ≠ "" →
      ∃ m, (velocity_get env st).1 = .error (.ccCommunicationError m)) ∧
    ((env.vaSet (countVaSet st.trace)).res ≠ 0 ∨ (env.vaSet (countVaSet st.trace)).errStr ≠ "" →
      ∃ m, (velocity_set env v st).1 = .error (.ccCommunicationError m)) ∧
    ((env.slGet (countSl st.trace)).res ≠ 0 ∨ (env.slGet (countSl st.trace)).errStr ≠ "" →
      ∃ m, (get_limits env st).1 = .error (.ccCommunicationError m)) ∧
    (∀ d : ℚ, (env.tp (countTp st.trace)).res = 0 →
      (env.tp (countTp st.trace)).errStr = "" →
      ¬ (env.tp (countTp st.trace)).resp * 1000 + d > MAX_RUN →
      (env.ts (countTs st.trace)).errStr = "" →
      READY_STATES.contains (env.ts (countTs st.trace)).state = true →
      (env.prSet (countPr st.trace)).res ≠ 0 ∨ (env.prSet (countPr st.trace)).errStr ≠ "" →
      (move_relative_async env d st).1 =
        .error (.valueError ("Move went wrong: " ++ (env.prSet (countPr st.trace)).errStr))) ∧
    (∀ p : ℚ, ¬ p > MAX_RUN →
      (env.ts (countTs st.trace)).errStr = "" →
      READY_STATES.contains (env.ts (countTs st.trace)).state = true →
      (env.paSet (countPa st.trace)).res ≠ 0 ∨ (env.paSet (countPa st.trace)).errStr ≠ "" →
      (move_absolute_async env p st).1 =
        .error (.valueError ("Move went wrong: " ++ (env.paSet (countPa st.trace)).errStr))) := by
  refine ⟨?_, ?_, ?_, ?_, ?_, ?_, ?_, ?_, ?_, ?_, ?_⟩
  · intro h
    rw [get_state]
    rw [if_pos (length_ne_zero_of_ne_empty h)]
  · intro h
    rw [get_state]
    rw [if_neg (by simp [h])]
  · intro h
    exact ⟨_, by rw [set_state]; rw [if_pos h]⟩
  · intro h
    exact ⟨_, by rw [set_homing_velocity]; rw [if_pos h]⟩
  · intro h
    exact ⟨_, by rw [init_position_async]; rw [if_pos h]⟩
  · intro h
    exact ⟨_, by rw [cur_pos, cur_pos_mm]; rw [if_pos h]⟩
  · intro h
    exact ⟨_, by rw [velocity_get]; rw [if_pos h]⟩
  · intro h
    exact ⟨_, by rw [velocity_set]; rw [if_pos h]⟩
  · intro h
    exact ⟨_, by rw [get_limits]; rw [if_pos h]⟩
  · intro d h1 h2 hr he hs hf
    have hcTs : countTs (st.trace ++ [Cmd.tp]) = countTs st.trace := by
      simp [countTs_append, countTs_cons, countTs_nil, Cmd.isTs, Cmd.isTp]
    have hcPr : countPr ((st.trace ++ [Cmd.tp]) ++ [Cmd.ts]) = countPr st.trace := by
      simp [countPr_append, countPr_cons, countPr_nil, Cmd.isPr]
    rw [move_relative_async, cur_pos_ok env st h1 h2]
    dsimp only
    rw [if_neg hr, is_ready_red env _ (by rw [hcTs]; exact he)]
    dsimp only
    rw [hcTs, hs]
    rw [if_neg (by simp)]
    rw [hcPr, if_pos hf]
  · intro p hp he hs hf
    have hcPa : countPa (st.trace ++ [Cmd.ts]) = countPa st.trace := by
      simp [countPa_append, countPa_cons, countPa_nil, Cmd.isPa]
    rw [move_absolute_async, if_neg hp, is_ready_red env st he]
    dsimp only
    rw [hs]
    rw [if_neg (by simp)]
    rw [hcPa, if_pos hf]

/-- Witness for the amended C6: on a driver answering every round trip with
result code -1 and error string E, each operation raises a
CCMotorCommunicationError - except the two move commands, which raise a
ValueError when their move round trip is rejected, and except get_state,
which returns normally when only the result code is bad. -/
theorem C6_amended_fault_surfacing_witness :
    (get_state allFaultEnv initSt).1 = .error (.ccCommunicationError
      ("Oops: Cannot get the state. Error: " ++ (allFaultEnv.ts 0).errStr)) ∧
    (get_state tsFaultCodeEnv initSt).1 = .ok ⟨"32", ""⟩ ∧
    (∃ m, (set_state allFaultEnv 1 initSt).1 = .error (.ccCommunicationError m)) ∧
    (∃ m, (set_homing_velocity allFaultEnv (1/10) initSt).1 =
      .error (.ccCommunicationError m)) ∧
    (∃ m, (init_position_async allFaultEnv initSt).1 = .error (.ccCommunicationError m)) ∧
    (∃ m, (cur_pos allFaultEnv initSt).1 = .error (.ccCommunicationError m)) ∧
    (∃ m, (velocity_get allFaultEnv initSt).1 = .error (.ccCommunicationError m)) ∧
    (∃ m, (velocity_set allFaultEnv (1/10) initSt).1 = .error (.ccCommunicationError m)) ∧
    (∃ m, (get_limits allFaultEnv initSt).1 = .error (.ccCommunicationError m)) ∧
    (move_relative_sync moveFaultEnv 100 30 initSt).1 =
      .error (.valueError ("Move went wrong: " ++ "bad")) ∧
    (move_absolute_sync moveFaultEnv 500 30 3 initSt).1 =
      .error (.valueError ("Move went wrong: " ++ "bad")) := by
  have hA := C6_amended_fault_surfacing allFaultEnv initSt 1 (1/10)
  have hT := C6_amended_fault_surfacing tsFaultCodeEnv initSt 1 (1/10)
  have hM := C6_amended_fault_surfacing moveFaultEnv initSt 1 (1/10)
  have hrel := hM.2.2.2.2.2.2.2.2.2.1 100 rfl rfl
    (by norm_num [MAX_RUN, moveFaultEnv, alwaysReadyEnv, neverReadyEnv, initSt, countTp])
    rfl (by decide) (Or.inl (by decide))
  have habs := hM.2.2.2.2.2.2.2.2.2.2 500 (by norm_num [MAX_RUN])
    rfl (by decide) (Or.inl (by decide))
  refine ⟨hA.1 (by decide), ?_, hA.2.2.1 (Or.inl (by decide)),
    hA.2.2.2.1 (Or.inl (by decide)), hA.2.2.2.2.1 (Or.inl (by decide)),
    hA.2.2.2.2.2.1 (Or.inl (by decide)), hA.2.2.2.2.2.2.1 (Or.inl (by decide)),
    hA.2.2.2.2.2.2.2.1 (Or.inl (by decide)), hA.2.2.2.2.2.2.2.2.1 (Or.inl (by decide)),
    ?_, ?_⟩
  · have := hT.2.1 rfl
    simpa [tsFaultCodeEnv, neverReadyEnv, initSt, countTs] using this
  · have hfull : (move_relative_async moveFaultEnv 100 initSt).1 =
        .error (.valueError ("Move went wrong: " ++ "bad")) := by
      simpa [moveFaultEnv, initSt, countPr] using hrel
    rw [move_relative_sync]
    rcases hasync : move_relative_async moveFaultEnv 100 initSt with ⟨r, st1⟩
    rw [hasync] at hfull
    simp only at hfull
    rw [hfull]
  · have hfull : (move_absolute_async moveFaultEnv 500 initSt).1 =
        .error (.valueError ("Move went wrong: " ++ "bad")) := by
      simpa [moveFaultEnv, initSt, countPa] using habs
    rw [move_absolute_sync.eq_def]
    dsimp only
    rcases hasync : move_absolute_async moveFaultEnv 500 initSt with ⟨r, st1⟩
    rw [hasync] at hfull
    simp only at hfull
    rw [hfull]

theorem countPa_flatten_replicate (n : ℕ) (l : List Cmd) :
    countPa ((List.replicate n l).flatten) = n * countPa l := by
  induction n with
  | zero => simp [countPa]
  | succ m ih =>
    rw [List.replicate_succ, List.flatten_cons, countPa_append, ih]
    ring

theorem countOr_flatten_replicate (n : ℕ) (l : List Cmd) :
    countOr ((List.replicate n l).flatten) = n * countOr l := by
  induction n with
  | zero => simp [countOr]
  | succ m ih =>
    rw [List.replicate_succ, List.flatten_cons, countOr_append, ih]
    ring

theorem countMm_flatten_replicate (n : ℕ) (l : List Cmd) :
    countMm ((List.replicate n l).flatten) = n * countMm l := by
  induction n with
  | zero => simp [countMm]
  | succ m ih =>
    rw [List.replicate_succ, List.flatten_cons, countMm_append, ih]
    ring

theorem countPr_flatten_replicate (n : ℕ) (l : List Cmd) :
    countPr ((List.replicate n l).flatten) = n * countPr l := by
  induction n with
  | zero => simp [countPr]
  | succ m ih =>
    rw [List.replicate_succ, List.flatten_cons, countPr_append, ih]
    ring

/-- Counterexample to C3 as stated: against a driver that literally never
reports a ready state, move_absolute_sync does not run any move-and-home
cycle and does not raise a TimeoutError: the pre-flight ready check of the
very first move_absolute_async fails, so the call raises CCMotorStateError
and the PA_Set move command is never issued. -/
theorem C3_counterexample :
    (move_absolute_sync neverReadyEnv 500 30 3 initSt).1 =
      .error (.ccStateError "Stage not ready. Current state is : 28") ∧
    countPa (move_absolute_sync neverReadyEnv 500 30 3 initSt).2.trace = 0 := by
  have habs : move_absolute_async neverReadyEnv 500 initSt =
      (.error (.ccStateError ("Stage not ready. Current state is : " ++ "28")),
       { initSt with trace := initSt.trace ++ [Cmd.ts, Cmd.ts] }) := by
    rw [move_absolute_async, if_neg (by norm_num [MAX_RUN]),
      is_ready_red neverReadyEnv initSt rfl]
    dsimp only
    rw [show READY_STATES.contains (neverReadyEnv.ts (countTs initSt.trace)).state = false
      from by decide]
    rw [if_pos (by simp)]
    rw [state_red neverReadyEnv _ rfl]
    simp [neverReadyEnv, movingTS, initSt, countTs]
  rw [move_absolute_sync.eq_def]
  dsimp only
  rw [habs]
  exact ⟨rfl, by decide⟩

/-- C3 (amended): against a driver that is ready at each pre-flight check and
after each re-homing but never becomes ready while polling after a move,
move_absolute_sync with n_retry = N issues the same absolute move exactly
N + 1 times; each of the first N timed-out attempts is followed by the full
recovery (re-enable, then re-home via init_position_sync, then the retry with
n_retry decremented); the last attempt times out with no retries left and the
call fails with CCMotorTimeoutError whose timeout attribute is the configured
timeout.  The trace is exactly N failed cycles followed by the final attempt. -/
theorem C3_amended_retry_cycles (t p : ℚ) (hp : p ≤ MAX_RUN) (N : ℕ) :
    ∃ st', move_absolute_sync (stuckMoveEnv (natBound t)) p t N initSt =
        (.error (.ccTimeoutError (some t)), st') ∧
      countPa st'.trace = N + 1 ∧
      countOr st'.trace = N ∧
      countMm st'.trace = N ∧
      st'.trace = (List.replicate N (cycleCmds (natBound t) p)).flatten ++
        attemptCmds (natBound t) p := by
  have h := move_abs_stuck t p (not_lt.mpr hp) N initSt (by simp [initSt, countTs])
  refine ⟨_, h, ?_, ?_, ?_, by simp [initSt]⟩
  · dsimp only
    rw [show initSt.trace = [] from rfl, List.nil_append, countPa_append,
      countPa_flatten_replicate]
    rw [show countPa (cycleCmds (natBound t) p) = 1 from by
      simp [cycleCmds, countPa_append, countPa_cons, countPa_replicate,
        countPa_nil, Cmd.isPa]]
    rw [show countPa (attemptCmds (natBound t) p) = 1 from by
      simp [attemptCmds, countPa_append, countPa_cons, countPa_replicate,
        countPa_nil, Cmd.isPa]]
    ring
  · dsimp only
    rw [show initSt.trace = [] from rfl, List.nil_append, countOr_append,
      countOr_flatten_replicate]
    rw [show countOr (cycleCmds (natBound t) p) = 1 from by
      simp [cycleCmds, countOr_append, countOr_cons, countOr_replicate,
        countOr_nil, Cmd.isOrHome]]
    rw [show countOr (attemptCmds (natBound t) p) = 0 from by
      simp [attemptCmds, countOr_append, countOr_cons, countOr_replicate,
        countOr_nil, Cmd.isOrHome]]
    ring
  · dsimp only
    rw [show initSt.trace = [] from rfl, List.nil_append, countMm_append,
      countMm_flatten_replicate]
    rw [show countMm (cycleCmds (natBound t) p) = 1 from by
      simp [cycleCmds, countMm_append, countMm_cons, countMm_replicate,
        countMm_nil, Cmd.isMm]]
    rw [show countMm (attemptCmds (natBound t) p) = 0 from by
      simp [attemptCmds, countMm_append, countMm_cons, countMm_replicate,
        countMm_nil, Cmd.isMm]]
    ring

/-- Witness for the amended C3: timeout 0 and n_retry = 2 yield exactly three
PA_Set moves, two re-homings and two re-enables before the TimeoutError. -/
theorem C3_amended_retry_cycles_witness :
    ∃ st', move_absolute_sync (stuckMoveEnv (natBound 0)) 500 0 2 initSt =
        (.error (.ccTimeoutError (some 0)), st') ∧
      countPa st'.trace = 3 ∧
      countOr st'.trace = 2 ∧
      countMm st'.trace = 2 ∧
      st'.trace = (List.replicate 2 (cycleCmds (natBound 0) 500)).flatten ++
        attemptCmds (natBound 0) 500 :=
  C3_amended_retry_cycles 0 500 (by norm_num [MAX_RUN]) 2

theorem stuckAfterMoveEnv_ts_moving {n : ℕ} (h : n ≠ 0) :
    stuckAfterMoveEnv.ts n = movingTS := by
  simp only [stuckAfterMoveEnv]
  rw [if_neg h]

/-- Counterexample to C5 as stated: against a driver that literally never
reports a ready state, move_relative_sync performs no move attempt and does
not raise a TimeoutError: the pre-flight ready check of move_relative_async
fails, so the call raises CCMotorStateError and the PR_Set move command is
never issued. -/
theorem C5_counterexample :
    (move_relative_sync neverReadyEnv 100 30 initSt).1 =
      .error (.ccStateError "Stage not ready: 28") ∧
    countPr (move_relative_sync neverReadyEnv 100 30 initSt).2.trace = 0 := by
  have hrel : move_relative_async neverReadyEnv 100 initSt =
      (.error (.ccStateError ("Stage not ready: " ++ "28")),
       { initSt with trace := initSt.trace ++ [Cmd.tp, Cmd.ts, Cmd.ts] }) := by
    rw [move_relative_async, cur_pos_ok neverReadyEnv initSt rfl rfl]
    dsimp only
    rw [if_neg (by norm_num [MAX_RUN, neverReadyEnv, initSt, countTp])]
    rw [is_ready_red neverReadyEnv _ rfl]
    dsimp only
    rw [show READY_STATES.contains
      (neverReadyEnv.ts (countTs (initSt.trace ++ [Cmd.tp]))).state = false from by decide]
    rw [if_pos (by simp)]
    rw [state_red neverReadyEnv _ rfl]
    simp [neverReadyEnv, movingTS, initSt, countTs]
  rw [move_relative_sync, hrel]
  exact ⟨rfl, by decide⟩

/-- C5 (amended): against a driver that is ready at the pre-flight check but
never becomes ready while polling after the move, move_relative_sync performs
exactly one move attempt - one PR_Set, no retry, no enable-and-rehome
recovery - and fails with CCMotorTimeoutError carrying the configured
timeout, after sleeping for natBound timeout polling intervals, which exceeds
the configured timeout. -/
theorem C5_amended_single_attempt (t d : ℚ) (hd : 1000 + d ≤ MAX_RUN) :
    ∃ st', move_relative_sync stuckAfterMoveEnv d t initSt =
        (.error (.ccTimeoutError (some t)), st') ∧
      countPr st'.trace = 1 ∧
      countPa st'.trace = 0 ∧
      countMm st'.trace = 0 ∧
      countOr st'.trace = 0 ∧
      st'.slept = (natBound t : ℚ) * MOVEMENT_SLEEP_TIME ∧
      t < st'.slept := by
  have hr : ¬ (stuckAfterMoveEnv.tp (countTp initSt.trace)).resp * 1000 + d > MAX_RUN := by
    have := not_lt.mpr hd
    simpa [stuckAfterMoveEnv, neverReadyEnv, initSt, countTp] using this
  rw [move_relative_sync,
    move_relative_async_ok stuckAfterMoveEnv d initSt rfl rfl hr rfl (by decide) rfl rfl]
  dsimp only
  have hcount : ∀ k : ℕ,
      countTs (initSt.trace ++ [Cmd.tp, Cmd.ts, Cmd.prSet ((1/1000) * d)]) + k = 1 + k := by
    intro k
    simp [initSt, countTs_append, countTs_cons, countTs_nil, Cmd.isTs, Cmd.isTp, Cmd.isPr]
  rw [pollReady_stuck stuckAfterMoveEnv t 0 (natBound t) _ (by omega)
    (by
      intro k hk
      rw [hcount k, stuckAfterMoveEnv_ts_moving (by omega)]
      exact ⟨rfl, rfl⟩)]
  refine ⟨_, rfl, ?_, ?_, ?_, ?_, ?_, ?_⟩
  · simp [initSt, countPr_append, countPr_cons, countPr_nil, countPr_replicate, Cmd.isPr,
      Cmd.isTp, Cmd.isTs]
  · simp [initSt, countPa_append, countPa_cons, countPa_nil, countPa_replicate, Cmd.isPa,
      Cmd.isTp, Cmd.isTs, Cmd.isPr]
  · simp [initSt, countMm_append, countMm_cons, countMm_nil, countMm_replicate, Cmd.isMm,
      Cmd.isTp, Cmd.isTs, Cmd.isPr]
  · simp [initSt, countOr_append, countOr_cons, countOr_nil, countOr_replicate,
      Cmd.isOrHome, Cmd.isTp, Cmd.isTs, Cmd.isPr]
  · simp [initSt]
  · dsimp only
    have := natBound_gt t
    simp only [initSt]
    linarith [natBound_gt t]

/-- Witness for the amended C5: a relative move by 100 from position 1000
with timeout 30 makes exactly one move attempt and times out after 30.05
seconds of polling. -/
theorem C5_amended_single_attempt_witness :
    ∃ st', move_relative_sync stuckAfterMoveEnv 100 30 initSt =
        (.error (.ccTimeoutError (some 30)), st') ∧
      countPr st'.trace = 1 ∧
      countPa st'.trace = 0 ∧
      countMm st'.trace = 0 ∧
      countOr st'.trace = 0 ∧
      st'.slept = (natBound 30 : ℚ) * MOVEMENT_SLEEP_TIME ∧
      (30 : ℚ) < st'.slept :=
  C5_amended_single_attempt 30 100 (by norm_num [MAX_RUN])

/-- For a nonnegative timeout, one full timed-out poll sleeps at most
timeout + MOVEMENT_SLEEP_TIME. -/
theorem natBound_mul_le {t : ℚ} (ht : 0 ≤ t) :
    (natBound t : ℚ) * MOVEMENT_SLEEP_TIME ≤ t + MOVEMENT_SLEEP_TIME := by
  rw [natBound, if_neg (not_lt.mpr (by linarith))]
  have h0 : (0 : ℤ) ≤ ⌊20 * t⌋ := Int.floor_nonneg.mpr (by linarith)
  have hf : ((⌊20 * t⌋ : ℤ) : ℚ) ≤ 20 * t := Int.floor_le (20 * t)
  have hz : ((⌊20 * t⌋).toNat : ℤ) + 1 = ⌊20 * t⌋ + 1 := by
    rw [Int.toNat_of_nonneg h0]
  have hcast : ((((⌊20 * t⌋).toNat + 1 : ℕ)) : ℚ) = ((⌊20 * t⌋ : ℤ) : ℚ) + 1 := by
    exact_mod_cast hz
  rw [hcast, MOVEMENT_SLEEP_TIME]
  linarith

/-- Counterexample to C7 as stated: with timeout 1 and one retry, the
never-ready driver makes init_position_sync sleep for 2.1 seconds in total -
more than retries x timeout = 1 second - before the TimeoutError, because
each of the retries + 1 attempts polls for a full timeout. -/
theorem C7_counterexample :
    (init_position_sync neverReadyEnv 1 1 initSt).1 =
      .error (.ccTimeoutError (some 1)) ∧
    (init_position_sync neverReadyEnv 1 1 initSt).2.slept = 21/10 ∧
    ¬ (init_position_sync neverReadyEnv 1 1 initSt).2.slept ≤ 1 * 1 := by
  have h := init_sync_stuck 1 1 initSt
  have hB : natBound 1 = 21 := by rw [natBound]; norm_num; decide
  rw [h]
  refine ⟨rfl, ?_, ?_⟩
  · dsimp only
    rw [hB]
    norm_num [initSt, MOVEMENT_SLEEP_TIME]
  · dsimp only
    rw [hB]
    norm_num [initSt, MOVEMENT_SLEEP_TIME]

/-- C7 (amended): init_position_sync with a nonnegative timeout and n_retry
retries against the never-ready driver re-issues the home command on each of
its n_retry + 1 attempts, polls for a full timeout each attempt (the elapsed
time resets at each retry), fails with CCMotorTimeoutError carrying the
configured timeout once retries are exhausted, and blocks in total for
(n_retry + 1) polling rounds of natBound timeout sleeps each - at most
(n_retry + 1) x (timeout + MOVEMENT_SLEEP_TIME), not n_retry x timeout. -/
theorem C7_amended_retry_budget (t : ℚ) (N : ℕ) (ht : 0 ≤ t) :
    ∃ st', init_position_sync neverReadyEnv t N initSt =
        (.error (.ccTimeoutError (some t)), st') ∧
      countOr st'.trace = N + 1 ∧
      st'.slept = (((N + 1) * natBound t : ℕ) : ℚ) * MOVEMENT_SLEEP_TIME ∧
      st'.slept ≤ ((N : ℚ) + 1) * (t + MOVEMENT_SLEEP_TIME) := by
  have h := init_sync_stuck t N initSt
  refine ⟨_, h, ?_, ?_, ?_⟩
  · dsimp only
    rw [show initSt.trace = [] from rfl, List.nil_append, countOr_flatten_replicate]
    rw [show countOr (Cmd.orHome :: List.replicate (natBound t) Cmd.ts) = 1 from by
      simp [countOr_cons, countOr_replicate, Cmd.isOrHome]]
    ring
  · simp [initSt]
  · dsimp only
    have hb := natBound_mul_le ht
    have hcast : ((((N + 1) * natBound t : ℕ)) : ℚ) * MOVEMENT_SLEEP_TIME =
        ((N : ℚ) + 1) * ((natBound t : ℚ) * MOVEMENT_SLEEP_TIME) := by
      push_cast
      ring
    rw [show initSt.slept = 0 from rfl, zero_add, hcast]
    apply mul_le_mul_of_nonneg_left hb
    positivity

/-- Witness for the amended C7: timeout 1 with one retry issues two home
commands, sleeps 2.1 seconds in total, and stays within the
(retries + 1) x (timeout + sleep interval) budget. -/
theorem C7_amended_retry_budget_witness :
    ∃ st', init_position_sync neverReadyEnv 1 1 initSt =
        (.error (.ccTimeoutError (some 1)), st') ∧
      countOr st'.trace = 1 + 1 ∧
      st'.slept = (((1 + 1) * natBound 1 : ℕ) : ℚ) * MOVEMENT_SLEEP_TIME ∧
      st'.slept ≤ ((1 : ℚ) + 1) * (1 + MOVEMENT_SLEEP_TIME) :=
  C7_amended_retry_budget 1 1 (by norm_num)

end ConexCC
